import Mathlib

/-!
Token lifecycle and request-interceptor pipeline of `social-media-app`.

A shallow embedding of `server/internal/auth`, `server/internal/middleware` and the
router set-up of `server/cmd/api`.

* Redis is a finite key/value list; every client call takes the fault (if any)
  that the round-trip produced, so that upstream errors are inputs of the model.
* `crypto/rand`, `crypto/sha256`, `encoding/json` and `golang-jwt` are third-party
  code: their results are parameters (`Lib`, `JWTLib`, the `*Env` records). Only the
  textual helpers (`hex.EncodeToString`, `strings.Split`, `strings.TrimSpace`, the
  canonical header key, the layout of a UUID string) are written out.
* `time.Time` is an integer number of nanoseconds since the Unix epoch.
-/

set_option autoImplicit false

namespace SocialMediaApp

/-! ## Redis client model -/

/-- A stored value together with the TTL (nanoseconds) it was written with. -/
structure Entry where
  value : String
  ttl : Int
  deriving DecidableEq, Repr

/-- The key space of the Redis instance behind `rdb`. -/
abbrev Store := List (String × Entry)

namespace Store

/-- Raw lookup of a key. -/
def get : Store → String → Option Entry
  | [], _ => none
  | (k, e) :: rest, key => if k = key then some e else get rest key

/-- Removal of a key; removing an absent key is not an error. -/
def del (rdb : Store) (key : String) : Store :=
  rdb.filter (fun p => decide (p.1 ≠ key))

/-- Overwriting write of a key with a TTL. -/
def set (rdb : Store) (key value : String) (ttl : Int) : Store :=
  (key, ⟨value, ttl⟩) :: rdb.del key

/-- Whether the key exists (the `EXISTS` command of the tests). -/
def exists_ (rdb : Store) (key : String) : Bool :=
  (rdb.get key).isSome

end Store

/-- Result of `rdb.Get(ctx, key).Result()`: a value, `redis.Nil`, or a client error. -/
inductive GetResult where
  | val (v : String)
  | redisNil
  | err (e : String)
  deriving DecidableEq, Repr

/-- The command `rdb.Get`. `fault` is the client error of this round-trip, if any. -/
def redisGet (fault : Option String) (rdb : Store) (key : String) : GetResult :=
  match fault with
  | some e => .err e
  | none =>
    match rdb.get key with
    | some e => .val e.value
    | none => .redisNil

/-- The command `rdb.Del(...).Err()`: the error (if any) and the store afterwards.
A faulted round-trip leaves the store as it was. -/
def redisDel (fault : Option String) (rdb : Store) (key : String) : Option String × Store :=
  match fault with
  | some e => (some e, rdb)
  | none => (none, rdb.del key)

/-- The command `rdb.Set(...).Err()`: the error (if any) and the store afterwards. -/
def redisSet (fault : Option String) (rdb : Store) (key value : String) (ttl : Int) :
    Option String × Store :=
  match fault with
  | some e => (some e, rdb)
  | none => (none, rdb.set key value ttl)

/-! ## `auth/refresh.go` -/

/-- One Go `time.Hour` in nanoseconds. -/
def hour : Int := 3600 * 1000000000

/-- Constant `RefreshTokenTTL = 30 * 24 * time.Hour`. -/
def RefreshTokenTTL : Int := 30 * 24 * hour

/-- Constant `SessionPrefix`. -/
def SessionPrefix : String := "session:"

/-- The record `Session` of refresh.go. -/
structure Session where
  UserID : String
  Expiry : Int
  deriving DecidableEq, Repr

/-- Third-party functions used by refresh.go. -/
structure Lib where
  /-- Digest `sha256.Sum256([]byte(token))` as a list of bytes. -/
  sha256 : String → List Nat
  /-- Function `json.Marshal` at type `Session`. -/
  jsonMarshal : Session → Except String String
  /-- Function `json.Unmarshal` into a `Session`. -/
  jsonUnmarshal : String → Except String Session

/-- One lower-case hexadecimal digit. -/
def hexDigit (n : Nat) : Char :=
  "0123456789abcdef".toList.getD (n % 16) '0'

/-- Function `hex.EncodeToString`. -/
def hexEncode (bytes : List Nat) : String :=
  String.mk (bytes.flatMap (fun b => [hexDigit (b / 16), hexDigit b]))

/-- Function `hashToken`: the sha256 hash of the token as a hex string. -/
def hashToken (lib : Lib) (token : String) : String :=
  hexEncode (lib.sha256 token)

/-- What the outside world contributes to one `CreateRefreshToken` call. -/
structure CreateEnv where
  /-- Outcome of `rand.Read` on the 32-byte buffer: the bytes, or the error text. -/
  rand : Except String (List Nat)
  /-- Value of `time.Now()`. -/
  now : Int
  /-- Fault of the `Set` round-trip, if any. -/
  setFault : Option String

/-- Function `generateRandomToken`. -/
def generateRandomToken (env : CreateEnv) : Except String String :=
  match env.rand with
  | .error e => .error ("failed to generate random token: " ++ e)
  | .ok b => .ok (hexEncode b)

/-- Function `CreateRefreshToken`: result and store afterwards. -/
def CreateRefreshToken (lib : Lib) (env : CreateEnv) (rdb : Store) (userID : String) :
    Except String String × Store :=
  match generateRandomToken env with
  | .error e => (.error e, rdb)
  | .ok token =>
    let hash := hashToken lib token
    let expiry := env.now + RefreshTokenTTL
    let session : Session := ⟨userID, expiry⟩
    match lib.jsonMarshal session with
    | .error e => (.error ("failed to marshal session: " ++ e), rdb)
    | .ok data =>
      match redisSet env.setFault rdb (SessionPrefix ++ hash) data RefreshTokenTTL with
      | (some e, rdb1) => (.error ("failed to store session in redis: " ++ e), rdb1)
      | (none, rdb1) => (.ok token, rdb1)

/-- What the outside world contributes to one `RotateRefreshToken` call. -/
structure RotateEnv where
  /-- Fault of the `Get` round-trip, if any. -/
  getFault : Option String
  /-- Fault of the `Del` round-trip, if any. -/
  delFault : Option String
  /-- Environment of the nested `CreateRefreshToken`. -/
  create : CreateEnv

/-- Function `RotateRefreshToken`: `(newToken, userID)` or the error, and the store afterwards. -/
def RotateRefreshToken (lib : Lib) (env : RotateEnv) (rdb : Store) (oldToken : String) :
    Except String (String × String) × Store :=
  let oldHash := hashToken lib oldToken
  let key := SessionPrefix ++ oldHash
  match redisGet env.getFault rdb key with
  | .redisNil => (.error "invalid or expired refresh token", rdb)
  | .err e => (.error ("failed to get session from redis: " ++ e), rdb)
  | .val val =>
    match lib.jsonUnmarshal val with
    | .error e => (.error ("failed to unmarshal session: " ++ e), rdb)
    | .ok session =>
      match redisDel env.delFault rdb key with
      | (some e, rdb1) => (.error ("failed to delete old session: " ++ e), rdb1)
      | (none, rdb1) =>
        match CreateRefreshToken lib env.create rdb1 session.UserID with
        | (.error e, rdb2) => (.error ("failed to create new refresh token: " ++ e), rdb2)
        | (.ok newToken, rdb2) => (.ok (newToken, session.UserID), rdb2)

/-- Function `DeleteRefreshToken`: the returned error (if any) and the store afterwards. -/
def DeleteRefreshToken (lib : Lib) (delFault : Option String) (rdb : Store) (token : String) :
    Option String × Store :=
  let hash := hashToken lib token
  redisDel delFault rdb (SessionPrefix ++ hash)

/-- A sequence of `RotateRefreshToken` calls with the same token, one per environment,
each against the store left by the previous one. -/
def rotateRepeatedly (lib : Lib) : List RotateEnv → Store → String →
    List (Except String (String × String)) × Store
  | [], rdb, _ => ([], rdb)
  | env :: envs, rdb, t =>
    let r := RotateRefreshToken lib env rdb t
    let rest := rotateRepeatedly lib envs r.2 t
    (r.1 :: rest.1, rest.2)

/-- Environment of a `CreateRefreshToken` call in which `rand.Read` and the store succeed. -/
def CreateEnv.healthy (bytes : List Nat) (now : Int) : CreateEnv :=
  ⟨.ok bytes, now, none⟩

/-- Environment of a `RotateRefreshToken` call in which `rand.Read` and the store succeed. -/
def RotateEnv.healthy (bytes : List Nat) (now : Int) : RotateEnv :=
  ⟨none, none, CreateEnv.healthy bytes now⟩

/-- A toy instance of the third-party functions, used to run the model on concrete inputs:
the digest is the list of character codes, JSON is the user id itself. -/
def toyLib : Lib where
  sha256 := fun s => s.toList.map (fun c => c.toNat % 256)
  jsonMarshal := fun s => .ok s.UserID
  jsonUnmarshal := fun d => .ok ⟨d, 0⟩

/-- A store holding one session of user "u" under the key of the secret "a". -/
def sampleStore : Store :=
  [(SessionPrefix ++ hashToken toyLib "a", ⟨"u", RefreshTokenTTL⟩)]

/-! ## `auth/jwt.go` -/

/-- One second of `time.Duration`, in nanoseconds. -/
def second : Int := 1000000000

/-- One minute of `time.Duration`, in nanoseconds. -/
def minute : Int := 60 * second

/-- The public half of an RSA key (`rsa.PublicKey`). -/
structure RSAPublicKey where
  N : Nat
  E : Nat
  deriving DecidableEq, Repr

/-- An RSA private key (`rsa.PrivateKey`), which embeds its public half. -/
structure RSAPrivateKey where
  PublicKey : RSAPublicKey
  D : Nat
  deriving DecidableEq, Repr

/-- The dynamic type of `token.Method`: the signing-method families of golang-jwt, each
with the hash size of the algorithm (`rsa 256` is RS256, `hmac 256` is HS256, ...). -/
inductive SigningMethod where
  | rsa (bits : Nat)
  | rsapss (bits : Nat)
  | hmac (bits : Nat)
  | ecdsa (bits : Nat)
  | ed25519
  | none
  deriving DecidableEq, Repr

/-- The value of the `alg` header of a token signed with the method. -/
def SigningMethod.Alg : SigningMethod → String
  | .rsa bits => "RS" ++ toString bits
  | .rsapss bits => "PS" ++ toString bits
  | .hmac bits => "HS" ++ toString bits
  | .ecdsa bits => "ES" ++ toString bits
  | .ed25519 => "EdDSA"
  | .none => "none"

/-- The fields of `jwt.RegisteredClaims`; a numeric date is a time in nanoseconds that is a
whole number of seconds. -/
structure RegisteredClaims where
  Issuer : String := ""
  Subject : String := ""
  Audience : List String := []
  ExpiresAt : Option Int := Option.none
  NotBefore : Option Int := Option.none
  IssuedAt : Option Int := Option.none
  ID : String := ""
  deriving DecidableEq, Repr

/-- The struct `Claims` of jwt.go. -/
structure Claims where
  UserID : String
  Registered : RegisteredClaims
  deriving DecidableEq, Repr

/-- The parts of `jwt.Token` that jwt.go reads. -/
structure Token where
  Method : SigningMethod
  Claims : Claims
  Valid : Bool
  deriving DecidableEq, Repr

/-- The functions of golang-jwt that jwt.go calls. -/
structure JWTLib where
  ParseRSAPrivateKeyFromPEM : String → Except String RSAPrivateKey
  ParseRSAPublicKeyFromPEM : String → Except String RSAPublicKey
  /-- The call `jwt.NewWithClaims(method, claims).SignedString(key)`. -/
  SignedString : SigningMethod → Claims → RSAPrivateKey → Except String String
  /-- The call `jwt.ParseWithClaims(tokenString, &Claims{}, keyFunc)`, with the reading of
  the clock against which the library validates the registered claims. -/
  ParseWithClaims : String → (Token → Except String RSAPublicKey) → Int → Except String Token

/-- Function `jwt.NewNumericDate`: the time truncated to whole seconds. -/
def NewNumericDate (t : Int) : Int := t - t % second

/-- The package variables `privateKey` and `publicKey`. -/
structure KeyState where
  privateKey : Option RSAPrivateKey
  publicKey : Option RSAPublicKey
  deriving DecidableEq, Repr

/-- Function `InitJWT`: the returned error (if any) and the package variables afterwards. -/
def InitJWT (lib : JWTLib) (keys : KeyState) (privateKeyPEM publicKeyPEM : String) :
    Option String × KeyState :=
  match lib.ParseRSAPrivateKeyFromPEM privateKeyPEM with
  | .error e => (some ("failed to parse RSA private key: " ++ e), { keys with privateKey := none })
  | .ok priv =>
    match lib.ParseRSAPublicKeyFromPEM publicKeyPEM with
    | .error e =>
      (some ("failed to parse RSA public key: " ++ e), ⟨some priv, none⟩)
    | .ok pub => (none, ⟨some priv, some pub⟩)

/-- The three successive readings of `time.Now()` inside `GenerateAccessToken`. -/
structure IssueClock where
  /-- Reading used for `expirationTime`. -/
  nowExp : Int
  /-- Reading used for `IssuedAt`. -/
  nowIat : Int
  /-- Reading used for `NotBefore`. -/
  nowNbf : Int

/-- The claims that `GenerateAccessToken` builds. -/
def accessClaims (clock : IssueClock) (userID : String) : Claims :=
  let expirationTime := clock.nowExp + 15 * minute
  { UserID := userID
    Registered :=
      { ExpiresAt := some (NewNumericDate expirationTime)
        IssuedAt := some (NewNumericDate clock.nowIat)
        NotBefore := some (NewNumericDate clock.nowNbf)
        Issuer := "social-media-app" } }

/-- Function `GenerateAccessToken`. -/
def GenerateAccessToken (lib : JWTLib) (keys : KeyState) (clock : IssueClock)
    (userID : String) : Except String String :=
  match keys.privateKey with
  | none => .error "JWT private key not initialized"
  | some priv => lib.SignedString (.rsa 256) (accessClaims clock userID) priv

/-- The key function that `ValidateAccessToken` hands to the parser. -/
def keyFunc (pub : RSAPublicKey) (token : Token) : Except String RSAPublicKey :=
  match token.Method with
  | .rsa _ => .ok pub
  | m => .error ("unexpected signing method: " ++ m.Alg)

/-- Function `ValidateAccessToken`; `now` is the clock reading of the validation. -/
def ValidateAccessToken (lib : JWTLib) (keys : KeyState) (now : Int) (tokenString : String) :
    Except String String :=
  match keys.publicKey with
  | none => .error "JWT public key not initialized"
  | some pub =>
    match lib.ParseWithClaims tokenString (keyFunc pub) now with
    | .error e => .error e
    | .ok token => if token.Valid then .ok token.Claims.UserID else .error "invalid token"

/-- The contract of golang-jwt for a matching RSA key pair: signing claims with RS256 and
the private key yields a non-empty token string, and parsing that string, with a key
function that returns the public key for RS256 tokens and at a time inside the
not-before/expiry window of the claims, yields a valid token carrying the signed user id. -/
def MatchingKeypair (lib : JWTLib) (priv : RSAPrivateKey) (pub : RSAPublicKey) : Prop :=
  ∀ c : Claims, ∃ tok, lib.SignedString (.rsa 256) c priv = .ok tok ∧ tok ≠ "" ∧
    ∀ (kf : Token → Except String RSAPublicKey) (now : Int),
      (∀ t : Token, t.Method = .rsa 256 → kf t = .ok pub) →
      (∀ e, c.Registered.ExpiresAt = some e → now < e) →
      (∀ n, c.Registered.NotBefore = some n → n ≤ now) →
      ∃ t, lib.ParseWithClaims tok kf now = .ok t ∧ t.Valid = true ∧
        t.Claims.UserID = c.UserID

/-- A toy instance of the library used to run the model: the token string is the user id
behind a marker character; parsing consults the key function and checks nothing else. -/
def toyJWT : JWTLib where
  ParseRSAPrivateKeyFromPEM := fun pem =>
    if pem = "" then .error "invalid key" else .ok ⟨⟨pem.length, 65537⟩, 1⟩
  ParseRSAPublicKeyFromPEM := fun pem =>
    if pem = "" then .error "invalid key" else .ok ⟨pem.length, 65537⟩
  SignedString := fun _ c _ => .ok (String.mk ('t' :: c.UserID.data))
  ParseWithClaims := fun tok kf _ =>
    match kf ⟨.rsa 256, ⟨String.mk tok.data.tail, {}⟩, false⟩ with
    | .error e => .error e
    | .ok _ => .ok ⟨.rsa 256, ⟨String.mk tok.data.tail, {}⟩, true⟩

/-! ## `net/http` as seen by the middleware -/

/-- Whether a character may appear in a header field name (an HTTP token character). -/
def isTokenChar (c : Char) : Bool :=
  c.isAlphanum || "!#$%&*+-.^_|~".toList.contains c || c = Char.ofNat 39 || c = Char.ofNat 96

/-- The loop of `textproto.CanonicalMIMEHeaderKey`: a letter is upper-cased at the start and
after a hyphen, lower-cased elsewhere. -/
def canonicalize : Bool → List Char → List Char
  | _, [] => []
  | upper, c :: cs =>
    (if upper then c.toUpper else c.toLower) :: canonicalize (decide (c = '-')) cs

/-- Function `textproto.CanonicalMIMEHeaderKey`; a key with a character that is not
allowed in a field name is returned unchanged. -/
def CanonicalMIMEHeaderKey (s : String) : String :=
  if s.toList.all isTokenChar then String.mk (canonicalize true s.toList) else s

/-- The type `http.Header`, restricted to the first value of each key. -/
abbrev Header := List (String × String)

namespace Header

/-- Method `Header.Get`: the first value under the canonical key, or "". -/
def Get (h : Header) (key : String) : String :=
  match h.find? (fun p => decide (p.1 = CanonicalMIMEHeaderKey key)) with
  | some p => p.2
  | none => ""

/-- Method `Header.Set`: replaces whatever is stored under the canonical key. -/
def Set (h : Header) (key value : String) : Header :=
  (CanonicalMIMEHeaderKey key, value) ::
    h.filter (fun p => decide (p.1 ≠ CanonicalMIMEHeaderKey key))

/-- Method `Header.Add`: appends a value under the canonical key. -/
def Add (h : Header) (key value : String) : Header :=
  h ++ [(CanonicalMIMEHeaderKey key, value)]

end Header

/-- Keys of context values: those of the package type `contextKey`, and keys owned by
other packages. -/
inductive CtxKey where
  | contextKey (name : String)
  | foreign (id : Nat)
  deriving DecidableEq, Repr

/-- Dynamic values stored in a context: strings, and values of any other type. -/
inductive CtxVal where
  | str (s : String)
  | other (id : Nat)
  deriving DecidableEq, Repr

/-- A `context.Context` as the chain of its `WithValue` layers, innermost first. -/
abbrev Context := List (CtxKey × CtxVal)

/-- Function `context.WithValue`. -/
def Context.WithValue (ctx : Context) (key : CtxKey) (val : CtxVal) : Context :=
  (key, val) :: ctx

/-- Method `ctx.Value`. -/
def Context.Value : Context → CtxKey → Option CtxVal
  | [], _ => none
  | (k, v) :: rest, key => if k = key then some v else Context.Value rest key

/-- The parts of `http.Request` that the middleware reads. -/
structure Request where
  Method : String
  Path : String
  Header : Header
  ctx : Context
  deriving DecidableEq, Repr

/-- Method `r.WithContext`. -/
def Request.WithContext (r : Request) (ctx : Context) : Request :=
  { r with ctx := ctx }

/-- The methods of the interface `http.ResponseWriter`, over a writer state `W`. -/
structure WriterOps (W : Type) where
  /-- Lookup in the map returned by `w.Header()`. -/
  headerGet : W → String → String
  /-- The call `w.Header().Set(key, value)`. -/
  headerSet : W → String → String → W
  /-- The call `w.Header().Add(key, value)`. -/
  headerAdd : W → String → String → W
  /-- The call `w.WriteHeader(code)`. -/
  WriteHeader : W → Nat → W
  /-- The call `w.Write(buf)`. -/
  Write : W → String → W

/-- A response writer that records what it is given (`httptest.ResponseRecorder`): the
header map, whether the status line went out, the status code, and the body. -/
structure ResponseWriter where
  header : Header
  wroteHeader : Bool
  status : Nat
  body : String
  deriving DecidableEq, Repr

namespace ResponseWriter

/-- A writer on which nothing has been written, with the given header map. -/
def new (header : Header) : ResponseWriter := ⟨header, false, 200, ""⟩

/-- Method `WriteHeader`: only the first call counts. -/
def WriteHeader (w : ResponseWriter) (code : Nat) : ResponseWriter :=
  if w.wroteHeader then w else { w with wroteHeader := true, status := code }

/-- Method `Write`: sends status 200 first if no status went out yet. -/
def Write (w : ResponseWriter) (buf : String) : ResponseWriter :=
  let w1 := if w.wroteHeader then w else w.WriteHeader 200
  { w1 with body := w1.body ++ buf }

/-- The recording writer as an `http.ResponseWriter`. -/
def ops : WriterOps ResponseWriter where
  headerGet := fun w k => w.header.Get k
  headerSet := fun w k v => { w with header := w.header.Set k v }
  headerAdd := fun w k v => { w with header := w.header.Add k v }
  WriteHeader := WriteHeader
  Write := Write

end ResponseWriter

/-- One structured log record written through `slog`. -/
structure LogEntry where
  level : String
  msg : String
  attrs : List (String × String)
  deriving DecidableEq, Repr

/-- The value a handler panicked with. -/
inductive PanicValue where
  | ErrAbortHandler
  | other (v : String)
  deriving DecidableEq, Repr

/-- Everything a handler can change: the response writer it was handed, the state owned by
the application handlers, and the log. -/
structure World (W σ : Type) where
  w : W
  app : σ
  logs : List LogEntry

/-- How a `ServeHTTP` call ended: the world it left, and the panic it raised, if any. -/
structure Outcome (W σ : Type) where
  world : World W σ
  panic : Option PanicValue

/-- An `http.Handler` serving on writers of type `W`. -/
abbrev Handler (W σ : Type) := Request → World W σ → Outcome W σ

/-- Function `http.Error`. -/
def httpError {W : Type} (ops : WriterOps W) (w : W) (error : String) (code : Nat) : W :=
  let w1 := ops.headerSet w "Content-Type" "text/plain; charset=utf-8"
  let w2 := ops.headerSet w1 "X-Content-Type-Options" "nosniff"
  let w3 := ops.WriteHeader w2 code
  ops.Write w3 (error ++ "\n")

/-- Function `strings.Split` for a one-character separator, on the characters of the string. -/
def splitChars (sep : Char) : List Char → List (List Char)
  | [] => [[]]
  | c :: cs =>
    if c = sep then [] :: splitChars sep cs
    else
      match splitChars sep cs with
      | [] => [[c]]
      | p :: ps => (c :: p) :: ps

/-- Function `strings.Split(s, sep)` for a one-character separator. -/
def stringsSplit (s : String) (sep : Char) : List String :=
  (splitChars sep s.toList).map String.mk

/-- Function `unicode.IsSpace`. -/
def unicodeIsSpace (c : Char) : Bool :=
  let n := c.toNat
  (9 ≤ n && n ≤ 13) || n = 32 || n = 0x85 || n = 0xA0 || n = 0x1680 ||
    (0x2000 ≤ n && n ≤ 0x200a) || n = 0x2028 || n = 0x2029 || n = 0x202f ||
    n = 0x205f || n = 0x3000

/-- Function `strings.TrimSpace`. -/
def TrimSpace (s : String) : String :=
  String.mk ((s.toList.dropWhile unicodeIsSpace).reverse.dropWhile unicodeIsSpace).reverse

/-! ## `middleware/request_id.go` -/

/-- Constant `RequestIDKey`. -/
def RequestIDKey : CtxKey := .contextKey "requestId"

/-- Constant `RequestIDHeader`. -/
def RequestIDHeader : String := "X-Request-ID"

/-- Function `uuid.New`: sixteen random bytes with the version-4 and variant bits forced;
the random source is taken to deliver its bytes. -/
def uuidNew (rand : List Nat) : List Nat :=
  (rand.set 6 (rand.getD 6 0 % 16 + 64)).set 8 (rand.getD 8 0 % 64 + 128)

/-- Method `UUID.String`: the five hyphen-separated groups of hexadecimal digits. -/
def uuidString (b : List Nat) : String :=
  hexEncode (b.take 4) ++ "-" ++ hexEncode ((b.drop 4).take 2) ++ "-" ++
    hexEncode ((b.drop 6).take 2) ++ "-" ++ hexEncode ((b.drop 8).take 2) ++ "-" ++
    hexEncode ((b.drop 10).take 6)

/-- Function `RequestID`; `rand` are the bytes `uuid.New()` draws if it is called. -/
def RequestID {W σ : Type} (ops : WriterOps W) (rand : List Nat) (next : Handler W σ) :
    Handler W σ :=
  fun r world =>
    let requestID := r.Header.Get RequestIDHeader
    let requestID := if requestID = "" then uuidString (uuidNew rand) else requestID
    let ctx := r.ctx.WithValue RequestIDKey (.str requestID)
    let w := ops.headerSet world.w RequestIDHeader requestID
    next (r.WithContext ctx) { world with w := w }

/-- Function `GetRequestID`. -/
def GetRequestID (ctx : Context) : String :=
  match ctx.Value RequestIDKey with
  | some (.str id) => id
  | _ => ""

/-! ## `middleware/cors.go` -/

/-- The slice `origins` that `CORS` builds: the comma-separated entries, each trimmed. -/
def corsOrigins (allowedOrigins : String) : List String :=
  (stringsSplit allowedOrigins ',').map TrimSpace

/-- The loop over `origins` that looks for the request origin. -/
def originListed (origin : String) : List String → Bool
  | [] => false
  | o :: rest => if o = origin then true else originListed origin rest

/-- The value of the variable `allow` of `CORS`. -/
def corsAllow (allowedOrigins origin : String) : Bool :=
  if allowedOrigins = "*" then true else originListed origin (corsOrigins allowedOrigins)

/-- The five `w.Header().Set` calls made for an allowed origin. -/
def setCORSHeaders {W : Type} (ops : WriterOps W) (w : W) (origin : String) : W :=
  let w1 := ops.headerSet w "Access-Control-Allow-Origin" origin
  let w2 := ops.headerSet w1 "Access-Control-Allow-Methods"
    "GET, POST, PUT, DELETE, PATCH, OPTIONS"
  let w3 := ops.headerSet w2 "Access-Control-Allow-Headers"
    "Accept, Content-Type, Content-Length, Accept-Encoding, X-CSRF-Token, Authorization, X-Request-ID"
  let w4 := ops.headerSet w3 "Access-Control-Allow-Credentials" "true"
  ops.headerSet w4 "Access-Control-Max-Age" "300"

/-- Function `CORS`. -/
def CORS {W σ : Type} (ops : WriterOps W) (allowedOrigins : String) (next : Handler W σ) :
    Handler W σ :=
  fun r world =>
    let origin := r.Header.Get "Origin"
    if origin = "" then next r world
    else
      let allow := corsAllow allowedOrigins origin
      let w := if allow then setCORSHeaders ops world.w origin else world.w
      if r.Method = "OPTIONS" then
        ⟨{ world with w := ops.WriteHeader w 204 }, none⟩
      else next r { world with w := w }

/-! ## `middleware/auth.go` -/

/-- Constant `UserIDKey`. -/
def UserIDKey : CtxKey := .contextKey "userID"

/-- Function `Auth`; `now` is the clock reading of the token validation. -/
def Auth {W σ : Type} (ops : WriterOps W) (lib : JWTLib) (keys : KeyState) (now : Int)
    (next : Handler W σ) : Handler W σ :=
  fun r world =>
    let authHeader := r.Header.Get "Authorization"
    if authHeader = "" then
      ⟨{ world with
          w := httpError ops world.w "Unauthorized: missing authorization header" 401 }, none⟩
    else
      let parts := stringsSplit authHeader ' '
      if parts.length ≠ 2 ∨ parts.getD 0 "" ≠ "Bearer" then
        ⟨{ world with
            w := httpError ops world.w "Unauthorized: invalid authorization header format"
              401 }, none⟩
      else
        let tokenString := parts.getD 1 ""
        match ValidateAccessToken lib keys now tokenString with
        | .error _ =>
          ⟨{ world with
              w := httpError ops world.w "Unauthorized: invalid or expired token" 401 }, none⟩
        | .ok userID =>
          let ctx := r.ctx.WithValue UserIDKey (.str userID)
          next (r.WithContext ctx) world

/-- Function `GetUserID`. -/
def GetUserID (ctx : Context) : String :=
  match ctx.Value UserIDKey with
  | some (.str id) => id
  | _ => ""

/-- The recorded response that `http.Error` leaves on an unwritten writer with status 401. -/
def unauthorized (header : Header) (message : String) : ResponseWriter :=
  { header := (header.Set "Content-Type" "text/plain; charset=utf-8").Set
      "X-Content-Type-Options" "nosniff"
    wroteHeader := true
    status := 401
    body := message ++ "\n" }

/-- An application handler that counts its invocations and replies "ok". -/
def okHandler : Handler ResponseWriter Nat :=
  fun _ world => ⟨{ world with w := world.w.Write "ok", app := world.app + 1 }, none⟩

/-- An application handler like the one of the tests: it records the user id it finds in
the request context and replies with it. -/
def recordUser : Handler ResponseWriter (List String) :=
  fun r world =>
    let gotUserID := GetUserID r.ctx
    let w1 := world.w.WriteHeader 200
    ⟨{ world with w := w1.Write ("OK: " ++ gotUserID), app := world.app ++ [gotUserID] }, none⟩

/-- Package variables after `InitJWT` on a toy key pair. -/
def sampleKeys : KeyState := ⟨some ⟨⟨3, 65537⟩, 1⟩, some ⟨3, 65537⟩⟩

/-- A GET request for "/" with the given headers and an empty context. -/
def getRequest (header : Header) : Request := ⟨"GET", "/", header, []⟩

/-- The allow-list of the CORS tests. -/
def sampleOrigins : String := "http://localhost:3000,http://example.com"

/-- A request with the given method and `Origin` header. -/
def originRequest (method origin : String) : Request :=
  ⟨method, "/test", [("Origin", origin)], []⟩

/-! ## `middleware/recoverer.go` -/

/-- Function `http.StatusText` at the codes the middleware uses. -/
def StatusText (code : Nat) : String :=
  if code = 500 then "Internal Server Error" else ""

/-- The text `slog.Any("error", err)` records for a panic value. -/
def PanicValue.text : PanicValue → String
  | .ErrAbortHandler => "net/http: abort Handler"
  | .other v => v

/-- Function `Recoverer`; `stack` is the text of `debug.Stack()` at the point of recovery. -/
def Recoverer {W σ : Type} (ops : WriterOps W) (stack : String) (next : Handler W σ) :
    Handler W σ :=
  fun r world =>
    let out := next r world
    match out.panic with
    | none => out
    | some err =>
      if err = PanicValue.ErrAbortHandler then
        ⟨out.world, some err⟩
      else
        let entry : LogEntry :=
          { level := "ERROR"
            msg := "panic recovered"
            attrs := [("error", err.text), ("stack", stack),
              ("request_id", GetRequestID r.ctx), ("method", r.Method), ("path", r.Path)] }
        let w1 := ops.WriteHeader out.world.w 500
        let w2 := ops.Write w1 (StatusText 500)
        ⟨{ out.world with w := w2, logs := out.world.logs ++ [entry] }, none⟩

/-! ## `middleware/logger.go` -/

/-- The struct `responseWriter`: the wrapped writer, the captured status, and whether the
status line went through the wrapper. -/
structure responseWriter (W : Type) where
  ResponseWriter : W
  status : Nat
  wroteHeader : Bool

/-- Function `wrapResponseWriter`. -/
def wrapResponseWriter {W : Type} (w : W) : responseWriter W := ⟨w, 0, false⟩

namespace responseWriter

/-- Method `Status`. -/
def Status {W : Type} (rw : responseWriter W) : Nat := rw.status

/-- Method `WriteHeader` of the wrapper. -/
def WriteHeader {W : Type} (ops : WriterOps W) (rw : responseWriter W) (code : Nat) :
    responseWriter W :=
  if rw.wroteHeader then rw
  else
    { ResponseWriter := ops.WriteHeader rw.ResponseWriter code
      status := code
      wroteHeader := true }

/-- Method `Write` of the wrapper. -/
def Write {W : Type} (ops : WriterOps W) (rw : responseWriter W) (buf : String) :
    responseWriter W :=
  let rw1 := if rw.wroteHeader then rw else rw.WriteHeader ops 200
  { rw1 with ResponseWriter := ops.Write rw1.ResponseWriter buf }

/-- The wrapper as an `http.ResponseWriter`; `Header` is promoted from the embedded writer. -/
def ops {W : Type} (ops : WriterOps W) : WriterOps (responseWriter W) where
  headerGet := fun rw k => ops.headerGet rw.ResponseWriter k
  headerSet := fun rw k v => { rw with ResponseWriter := ops.headerSet rw.ResponseWriter k v }
  headerAdd := fun rw k v => { rw with ResponseWriter := ops.headerAdd rw.ResponseWriter k v }
  WriteHeader := WriteHeader ops
  Write := Write ops

end responseWriter

/-- The two clock readings of `Logger`: `time.Now()` at the start and the reading behind
`time.Since(start)`. -/
structure LoggerClock where
  start : Int
  finish : Int

/-- The record that `Logger` writes with `slog.Info`. -/
def handledEntry (r : Request) (status : Nat) (clock : LoggerClock) : LogEntry :=
  { level := "INFO"
    msg := "request handled"
    attrs := [("method", r.Method), ("path", r.Path), ("status", toString status),
      ("latency", toString (clock.finish - clock.start)),
      ("request_id", GetRequestID r.ctx)] }

/-- Function `Logger`. A panic of the downstream handler unwinds through it: the log call
after `next.ServeHTTP` is then not reached. -/
def Logger {W σ : Type} (_ops : WriterOps W) (clock : LoggerClock)
    (next : Handler (responseWriter W) σ) : Handler W σ :=
  fun r world =>
    let wrapped := wrapResponseWriter world.w
    let out := next r ⟨wrapped, world.app, world.logs⟩
    match out.panic with
    | some p => ⟨⟨out.world.w.ResponseWriter, out.world.app, out.world.logs⟩, some p⟩
    | none =>
      let status := out.world.w.Status
      let status := if status = 0 then 200 else status
      ⟨⟨out.world.w.ResponseWriter, out.world.app,
        out.world.logs ++ [handledEntry r status clock]⟩, none⟩

/-- One call that a handler makes on the writer it was given. -/
inductive WriterCall where
  | headerSet (key value : String)
  | headerAdd (key value : String)
  | WriteHeader (code : Nat)
  | Write (buf : String)
  deriving DecidableEq, Repr

/-- Performs one call on a writer. -/
def WriterCall.run {W : Type} (ops : WriterOps W) (w : W) : WriterCall → W
  | .headerSet k v => ops.headerSet w k v
  | .headerAdd k v => ops.headerAdd w k v
  | .WriteHeader code => ops.WriteHeader w code
  | .Write buf => ops.Write w buf

/-- Performs a sequence of calls on a writer, in order. -/
def runCalls {W : Type} (ops : WriterOps W) : List WriterCall → W → W
  | [], w => w
  | c :: cs, w => runCalls ops cs (c.run ops w)

/-- A handler given by what it does: for each request, the calls it makes on its writer,
the new application state, the log records it writes, and the panic it ends with, if any.
The same behaviour runs on any writer type. -/
structure Behaviour (σ : Type) where
  calls : Request → σ → List WriterCall
  app : Request → σ → σ
  logs : Request → σ → List LogEntry
  panic : Request → σ → Option PanicValue

/-- The handler with the given behaviour, serving on writers of type `W`. -/
def Behaviour.handler {W σ : Type} (b : Behaviour σ) (ops : WriterOps W) : Handler W σ :=
  fun r world =>
    ⟨⟨runCalls ops (b.calls r world.app) world.w, b.app r world.app,
      world.logs ++ b.logs r world.app⟩, b.panic r world.app⟩

/-- A handler that sends status 200 and part of a body, then panics. -/
def partialThenPanic : Behaviour Nat where
  calls := fun _ _ => [.WriteHeader 200, .Write "partial"]
  app := fun _ s => s
  logs := fun _ _ => []
  panic := fun _ _ => some (.other "boom")

/-- A handler that panics with the given value before writing anything. -/
def panicsWith (v : PanicValue) : Behaviour Nat where
  calls := fun _ _ => []
  app := fun _ s => s
  logs := fun _ _ => []
  panic := fun _ _ => some v

/-- A toy instance of the library whose parser reads every token string as a correctly
signed token with the given signing method: it consults the key function on a token with
that method and, if a key comes back, returns the token as valid. -/
def toyJWTWith (m : SigningMethod) : JWTLib where
  ParseRSAPrivateKeyFromPEM := toyJWT.ParseRSAPrivateKeyFromPEM
  ParseRSAPublicKeyFromPEM := toyJWT.ParseRSAPublicKeyFromPEM
  SignedString := fun _ c _ => .ok (String.mk ('t' :: c.UserID.data))
  ParseWithClaims := fun tok kf _ =>
    match kf ⟨m, ⟨String.mk tok.data.tail, {}⟩, false⟩ with
    | .error e => .error e
    | .ok _ => .ok ⟨m, ⟨String.mk tok.data.tail, {}⟩, true⟩

/-! ## `auth/handlers.go` -/

/-- The values of `http.SameSite`. -/
inductive SameSite where
  | SameSiteDefaultMode
  | SameSiteLaxMode
  | SameSiteStrictMode
  | SameSiteNoneMode
  deriving DecidableEq, Repr

/-- The fields of `http.Cookie` that the handlers set; `Expires` is a time in nanoseconds
since the Unix epoch. -/
structure Cookie where
  Name : String
  Value : String
  Path : String
  Expires : Int
  HttpOnly : Bool
  Secure : Bool
  SameSite : SameSite
  deriving DecidableEq, Repr

/-- The functions of `net/http` and `encoding/json` that handlers.go relies on. -/
structure HTTPLib where
  /-- The call `r.Cookie(name)` on a request with these headers: the value of the first
  cookie of that name, or nothing (`http.ErrNoCookie`). -/
  readCookie : Header → String → Option String
  /-- Method `Cookie.String`: the text of the `Set-Cookie` line. -/
  cookieString : Cookie → String
  /-- What `json.NewEncoder(w).Encode` writes for a map of strings. -/
  jsonEncode : List (String × String) → String

/-- Function `http.SetCookie`. -/
def SetCookie {W : Type} (ops : WriterOps W) (hl : HTTPLib) (w : W) (cookie : Cookie) : W :=
  let v := hl.cookieString cookie
  if v ≠ "" then ops.headerAdd w "Set-Cookie" v else w

/-- What the outside world contributes to one `Refresh` call. -/
structure RefreshEnv where
  /-- Environment of the `RotateRefreshToken` call. -/
  rotate : RotateEnv
  /-- Clock readings of the `GenerateAccessToken` call. -/
  clock : IssueClock
  /-- Value of `time.Now()` for the expiry of the cookie. -/
  now : Int

/-- Method `AuthHandler.Refresh`; the application state is the store behind `h.rdb`. -/
def AuthHandler.Refresh {W : Type} (ops : WriterOps W) (hl : HTTPLib) (lib : Lib)
    (jwt : JWTLib) (keys : KeyState) (env : RefreshEnv) : Handler W Store :=
  fun r world =>
    match hl.readCookie r.Header "refresh_token" with
    | none =>
      ⟨{ world with w := httpError ops world.w "missing refresh token" 401 }, none⟩
    | some oldToken =>
      match RotateRefreshToken lib env.rotate world.app oldToken with
      | (.error err, rdb) =>
        ⟨{ world with w := httpError ops world.w err 401, app := rdb }, none⟩
      | (.ok (newToken, userID), rdb) =>
        match GenerateAccessToken jwt keys env.clock userID with
        | .error _ =>
          ⟨{ world with
              w := httpError ops world.w "failed to generate access token" 500,
              app := rdb }, none⟩
        | .ok accessToken =>
          let w1 := SetCookie ops hl world.w
            { Name := "refresh_token"
              Value := newToken
              Path := "/api/v1/auth"
              Expires := env.now + RefreshTokenTTL
              HttpOnly := true
              Secure := true
              SameSite := .SameSiteStrictMode }
          let w2 := ops.headerSet w1 "Content-Type" "application/json"
          let w3 := ops.Write w2 (hl.jsonEncode [("access_token", accessToken)])
          ⟨{ world with w := w3, app := rdb }, none⟩

/-- The cookie with which `Logout` clears the refresh token: empty value, expiry at the
Unix epoch (`time.Unix(0, 0)`). -/
def clearedCookie : Cookie :=
  { Name := "refresh_token"
    Value := ""
    Path := "/api/v1/auth"
    Expires := 0
    HttpOnly := true
    Secure := true
    SameSite := .SameSiteStrictMode }

/-- Method `AuthHandler.Logout`; `delFault` is the fault of the `Del` round-trip, if any.
The error of `DeleteRefreshToken` is dropped. -/
def AuthHandler.Logout {W : Type} (ops : WriterOps W) (hl : HTTPLib) (lib : Lib)
    (delFault : Option String) : Handler W Store :=
  fun r world =>
    let rdb :=
      match hl.readCookie r.Header "refresh_token" with
      | some value => (DeleteRefreshToken lib delFault world.app value).2
      | none => world.app
    let w1 := SetCookie ops hl world.w clearedCookie
    ⟨{ world with w := ops.WriteHeader w1 204, app := rdb }, none⟩

/-- A toy instance of the HTTP helpers used to run the model: the `Cookie` header holds a
single `name=value` pair and a `Set-Cookie` line is `name=value`. -/
def toyHTTP : HTTPLib where
  readCookie := fun h name =>
    if (name ++ "=").toList.isPrefixOf (h.Get "Cookie").toList then
      some (String.mk ((h.Get "Cookie").toList.drop (name ++ "=").toList.length))
    else none
  cookieString := fun c => c.Name ++ "=" ++ c.Value
  jsonEncode := fun m => String.join (m.map (fun p => p.1 ++ "=" ++ p.2 ++ "\n"))

/-- A POST request to the given path carrying the given `Cookie` header. -/
def cookieRequest (path cookie : String) : Request :=
  ⟨"POST", path, [("Cookie", cookie)], []⟩

/-- An environment of `Refresh` in which the store lookup fails with the given error. -/
def RefreshEnv.getFails (e : String) : RefreshEnv :=
  ⟨⟨some e, none, CreateEnv.healthy [1] 0⟩, ⟨0, 0, 0⟩, 0⟩

/-! ## `cmd/api/main.go` -/

/-- The struct `config.Config`. -/
structure Config where
  DBURL : String
  RedisURL : String
  MinioEndpoint : String
  MinioAccessKey : String
  MinioSecretKey : String
  JWTSecret : String
  Port : String
  CORSAllowedOrigins : String
  deriving DecidableEq, Repr

/-- What the outside world contributes to one request served by the router: the bytes of
`uuid.New()`, the clock readings of `Logger`, and the stack text of `Recoverer`. -/
structure ServeEnv where
  rand : List Nat
  clock : LoggerClock
  stack : String

/-- The four `r.Use` calls of `SetupRouter` around the route dispatch: chi runs the
middlewares in the order of registration, the first one outermost. -/
def middlewareChain {W σ : Type} (ops : WriterOps W) (cfg : Config) (env : ServeEnv)
    (routes : Handler (responseWriter W) σ) : Handler W σ :=
  RequestID ops env.rand
    (Logger ops env.clock
      (Recoverer (responseWriter.ops ops) env.stack
        (CORS (responseWriter.ops ops) cfg.CORSAllowedOrigins routes)))

/-- The routes registered by `SetupRouter` (`GET /` and `GET /health`), with the replies
of chi for a request that matches no route (404) or no method of a route (405). -/
def appRoutes {W σ : Type} (ops : WriterOps W) : Handler W σ :=
  fun r world =>
    if r.Path = "/" then
      if r.Method = "GET" then
        ⟨{ world with w := ops.Write world.w "Social Media App API is running!" }, none⟩
      else ⟨{ world with w := ops.WriteHeader world.w 405 }, none⟩
    else if r.Path = "/health" then
      if r.Method = "GET" then
        ⟨{ world with w := ops.Write (ops.WriteHeader world.w 200) "OK" }, none⟩
      else ⟨{ world with w := ops.WriteHeader world.w 405 }, none⟩
    else ⟨{ world with w := httpError ops world.w "404 page not found" 404 }, none⟩

/-- Function `SetupRouter`: the handler that the returned router serves with. -/
def SetupRouter {W σ : Type} (ops : WriterOps W) (cfg : Config) (env : ServeEnv) :
    Handler W σ :=
  middlewareChain ops cfg env (appRoutes (responseWriter.ops ops))

/-- Number of "request handled" records in a log. -/
def countHandled (logs : List LogEntry) : Nat :=
  (logs.filter (fun e => decide (e.msg = "request handled"))).length

/-- A configuration with the allow-list of the CORS tests. -/
def sampleConfig : Config :=
  ⟨"postgres://db", "redis:6379", "minio:9000", "key", "secret", "jwt", "8080", sampleOrigins⟩

/-- An environment of one request served by the router. -/
def sampleServeEnv : ServeEnv :=
  ⟨[1, 2, 3, 4, 5, 6, 7, 8, 9, 10, 11, 12, 13, 14, 15, 16], ⟨0, 5⟩, "stack"⟩

/-! ## Interleaved calls of `RotateRefreshToken` -/

/-- Where a `RotateRefreshToken` call stands between its store round-trips: before the
`Get`, after the `Get` (session decoded), after the `Del`, or returned. -/
inductive RotatePhase where
  | start
  | afterGet (session : Session)
  | afterDel (session : Session)
  | returned (result : Except String (String × String))

/-- The part of `RotateRefreshToken` up to and including its next store round-trip. -/
def rotateStep (lib : Lib) (env : RotateEnv) (oldToken : String) :
    RotatePhase → Store → RotatePhase × Store
  | .start, rdb =>
    match redisGet env.getFault rdb (SessionPrefix ++ hashToken lib oldToken) with
    | .redisNil => (.returned (.error "invalid or expired refresh token"), rdb)
    | .err e => (.returned (.error ("failed to get session from redis: " ++ e)), rdb)
    | .val val =>
      match lib.jsonUnmarshal val with
      | .error e => (.returned (.error ("failed to unmarshal session: " ++ e)), rdb)
      | .ok session => (.afterGet session, rdb)
  | .afterGet session, rdb =>
    match redisDel env.delFault rdb (SessionPrefix ++ hashToken lib oldToken) with
    | (some e, rdb1) => (.returned (.error ("failed to delete old session: " ++ e)), rdb1)
    | (none, rdb1) => (.afterDel session, rdb1)
  | .afterDel session, rdb =>
    match CreateRefreshToken lib env.create rdb session.UserID with
    | (.error e, rdb2) =>
      (.returned (.error ("failed to create new refresh token: " ++ e)), rdb2)
    | (.ok newToken, rdb2) => (.returned (.ok (newToken, session.UserID)), rdb2)
  | .returned result, rdb => (.returned result, rdb)

/-- The two calls that run concurrently. -/
inductive Caller where
  | A
  | B
  deriving DecidableEq, Repr

/-- Two concurrent `RotateRefreshToken` calls on the same token against one store. -/
structure Race where
  phaseA : RotatePhase
  phaseB : RotatePhase
  rdb : Store

/-- One scheduling decision: the chosen call runs up to its next store round-trip. -/
def Race.step (lib : Lib) (envA envB : RotateEnv) (t : String) (s : Race) : Caller → Race
  | .A =>
    let next := rotateStep lib envA t s.phaseA s.rdb
    { s with phaseA := next.1, rdb := next.2 }
  | .B =>
    let next := rotateStep lib envB t s.phaseB s.rdb
    { s with phaseB := next.1, rdb := next.2 }

/-- An interleaving: the scheduling decisions in order. -/
def Race.run (lib : Lib) (envA envB : RotateEnv) (t : String) : List Caller → Race → Race
  | [], s => s
  | c :: cs, s => Race.run lib envA envB t cs (s.step lib envA envB t c)

/-- The response writer of the HTTP server (`net/http`): like the recording writer, except
that a `WriteHeader` with a 1xx code other than 101 sends an informational response and
leaves the status of the response open. -/
structure ServerWriter where
  header : Header
  informational : List Nat
  wroteHeader : Bool
  status : Nat
  body : String
  deriving DecidableEq, Repr

namespace ServerWriter

/-- A writer on which nothing has been written, with the given header map. -/
def new (header : Header) : ServerWriter := ⟨header, [], false, 200, ""⟩

/-- Method `WriteHeader`: informational codes are sent at once and do not count; of the
others only the first counts. -/
def WriteHeader (w : ServerWriter) (code : Nat) : ServerWriter :=
  if w.wroteHeader then w
  else if 100 ≤ code ∧ code ≤ 199 ∧ code ≠ 101 then
    { w with informational := w.informational ++ [code] }
  else { w with wroteHeader := true, status := code }

/-- Method `Write`: sends status 200 first if no status went out yet. -/
def Write (w : ServerWriter) (buf : String) : ServerWriter :=
  let w1 := if w.wroteHeader then w else w.WriteHeader 200
  { w1 with body := w1.body ++ buf }

/-- The server's writer as an `http.ResponseWriter`. -/
def ops : WriterOps ServerWriter where
  headerGet := fun w k => w.header.Get k
  headerSet := fun w k v => { w with header := w.header.Set k v }
  headerAdd := fun w k v => { w with header := w.header.Add k v }
  WriteHeader := WriteHeader
  Write := Write

end ServerWriter

/-- A handler that sends 103 Early Hints, then answers 404 with a body. -/
def earlyHints : Behaviour Nat where
  calls := fun _ _ => [.WriteHeader 103, .WriteHeader 404, .Write "nf"]
  app := fun _ s => s
  logs := fun _ _ => []
  panic := fun _ _ => none

/-! ## Theorems -/

theorem Store.get_del_self (rdb : Store) (key : String) : (rdb.del key).get key = none := by
  induction rdb with
  | nil => rfl
  | cons p rest ih =>
    obtain ⟨k, e⟩ := p
    by_cases h : k = key
    · simpa [Store.del, List.filter, h] using ih
    · simpa [Store.del, List.filter, h, Store.get] using ih

theorem Store.get_del_other (rdb : Store) (key other : String) (h : key ≠ other) :
    (rdb.del key).get other = rdb.get other := by
  induction rdb with
  | nil => rfl
  | cons p rest ih =>
    obtain ⟨k, e⟩ := p
    by_cases hk : k = key
    · subst hk
      simpa [Store.del, List.filter, Store.get, h] using ih
    · by_cases ho : k = other
      · subst ho
        simp [Store.del, List.filter, hk, Store.get]
      · simpa [Store.del, List.filter, hk, Store.get, ho] using ih

theorem Store.get_set_self (rdb : Store) (key value : String) (ttl : Int) :
    (rdb.set key value ttl).get key = some ⟨value, ttl⟩ := by
  simp [Store.set, Store.get]

theorem Store.get_set_other (rdb : Store) (key other value : String) (ttl : Int)
    (h : key ≠ other) : (rdb.set key value ttl).get other = rdb.get other := by
  simp [Store.set, Store.get, h, Store.get_del_other rdb key other h]

theorem sessionKey_inj (a b : String) : SessionPrefix ++ a = SessionPrefix ++ b ↔ a = b := by
  constructor
  · intro h
    have h2 := congrArg String.data h
    simp only [String.data_append, List.append_cancel_left_eq] at h2
    exact String.ext h2
  · intro h; rw [h]

/-- What a successful `CreateRefreshToken` did. -/
theorem create_ok_inv (lib : Lib) (env : CreateEnv) (rdb rdb1 : Store) (userID token : String)
    (h : CreateRefreshToken lib env rdb userID = (.ok token, rdb1)) :
    ∃ bytes data, env.rand = .ok bytes ∧ token = hexEncode bytes ∧
      lib.jsonMarshal ⟨userID, env.now + RefreshTokenTTL⟩ = .ok data ∧
      rdb1 = rdb.set (SessionPrefix ++ hashToken lib token) data RefreshTokenTTL := by
  unfold CreateRefreshToken generateRandomToken at h
  cases hr : env.rand with
  | error e => simp [hr] at h
  | ok bytes =>
    simp only [hr] at h
    cases hm : lib.jsonMarshal ⟨userID, env.now + RefreshTokenTTL⟩ with
    | error e => simp [hm] at h
    | ok data =>
      simp only [hm] at h
      cases hf : env.setFault with
      | some e => simp [hf, redisSet] at h
      | none =>
        simp only [hf, redisSet, Prod.mk.injEq, Except.ok.injEq] at h
        exact ⟨bytes, data, rfl, h.1.symm, rfl, by rw [← h.1, ← h.2]⟩

/-- What a successful `RotateRefreshToken` did. -/
theorem rotate_ok_inv (lib : Lib) (env : RotateEnv) (rdb rdb1 : Store)
    (t newToken userID : String)
    (h : RotateRefreshToken lib env rdb t = (.ok (newToken, userID), rdb1)) :
    ∃ entry session data,
      rdb.get (SessionPrefix ++ hashToken lib t) = some entry ∧
      lib.jsonUnmarshal entry.value = .ok session ∧ session.UserID = userID ∧
      lib.jsonMarshal ⟨userID, env.create.now + RefreshTokenTTL⟩ = .ok data ∧
      rdb1 = ((rdb.del (SessionPrefix ++ hashToken lib t)).set
        (SessionPrefix ++ hashToken lib newToken) data RefreshTokenTTL) := by
  unfold RotateRefreshToken redisGet at h
  cases hg : env.getFault with
  | some e => simp [hg] at h
  | none =>
    simp only [hg] at h
    cases hl : rdb.get (SessionPrefix ++ hashToken lib t) with
    | none => simp [hl] at h
    | some entry =>
      simp only [hl] at h
      cases hu : lib.jsonUnmarshal entry.value with
      | error e => simp [hu] at h
      | ok session =>
        simp only [hu] at h
        cases hd : env.delFault with
        | some e => simp [hd, redisDel] at h
        | none =>
          simp only [hd, redisDel] at h
          cases hc : CreateRefreshToken lib env.create
              (rdb.del (SessionPrefix ++ hashToken lib t)) session.UserID with
          | mk res rdb2 =>
            cases res with
            | error e => simp [hc] at h
            | ok tok =>
              simp only [hc, Prod.mk.injEq, Except.ok.injEq] at h
              obtain ⟨⟨h1, h2⟩, h3⟩ := h
              subst h1 h2 h3
              obtain ⟨bytes, data, _, _, hm, hs⟩ := create_ok_inv lib _ _ _ _ _ hc
              exact ⟨entry, session, data, rfl, hu, rfl, hm, hs⟩

/-- Rotation of a token whose record is absent, with the lookup round-trip succeeding. -/
theorem rotate_absent (lib : Lib) (env : RotateEnv) (rdb : Store) (t : String)
    (hg : env.getFault = none)
    (habs : rdb.get (SessionPrefix ++ hashToken lib t) = none) :
    RotateRefreshToken lib env rdb t = (.error "invalid or expired refresh token", rdb) := by
  simp [RotateRefreshToken, redisGet, hg, habs]

/-- Repeated rotation of a token whose record is absent. -/
theorem rotateRepeatedly_absent (lib : Lib) (envs : List RotateEnv) (rdb : Store) (t : String)
    (hg : ∀ e ∈ envs, e.getFault = none)
    (habs : rdb.get (SessionPrefix ++ hashToken lib t) = none) :
    rotateRepeatedly lib envs rdb t =
      (envs.map (fun _ => .error "invalid or expired refresh token"), rdb) := by
  induction envs with
  | nil => rfl
  | cons e rest ih =>
    have he := rotate_absent lib e rdb t (hg e (List.mem_cons_self _ _)) habs
    have hr := ih (fun x hx => hg x (List.mem_cons_of_mem _ hx))
    simp [rotateRepeatedly, he, hr]

/-- C1 (amended): refresh tokens are single-use. Whenever `RotateRefreshToken` succeeds on `t`
(from any store, in any environment) and the replacement secret does not hash to the
hash of `t`, every later `RotateRefreshToken` on `t` against the resulting store whose
lookup round-trip reaches the store fails with "invalid or expired refresh token" and
leaves the store as it is, so every further repetition fails the same way. -/
theorem rotate_single_use (lib : Lib) (env : RotateEnv) (rdb rdb1 : Store)
    (t newToken userID : String)
    (hok : RotateRefreshToken lib env rdb t = (.ok (newToken, userID), rdb1))
    (hfresh : hashToken lib newToken ≠ hashToken lib t)
    (envs : List RotateEnv) (hreach : ∀ e ∈ envs, e.getFault = none) :
    rotateRepeatedly lib envs rdb1 t =
      (envs.map (fun _ => .error "invalid or expired refresh token"), rdb1) := by
  obtain ⟨entry, session, data, _, _, _, _, hs⟩ := rotate_ok_inv lib env rdb rdb1 t newToken userID hok
  apply rotateRepeatedly_absent lib envs rdb1 t hreach
  have hne : SessionPrefix ++ hashToken lib newToken ≠ SessionPrefix ++ hashToken lib t :=
    fun hc => hfresh ((sessionKey_inj _ _).mp hc)
  rw [hs, Store.get_set_other _ _ _ _ _ hne, Store.get_del_self]

/-- Instance of `rotate_single_use`: after rotating the secret "a" of the sample store, two
further rotations of "a" both fail and leave the store as it is. -/
theorem rotate_single_use_witness :
    rotateRepeatedly toyLib [RotateEnv.healthy [2] 5, RotateEnv.healthy [3] 9]
        (RotateRefreshToken toyLib (RotateEnv.healthy [1] 0) sampleStore "a").2 "a" =
      ([.error "invalid or expired refresh token", .error "invalid or expired refresh token"],
        (RotateRefreshToken toyLib (RotateEnv.healthy [1] 0) sampleStore "a").2) :=
  rotate_single_use toyLib (RotateEnv.healthy [1] 0) sampleStore _ "a" "01" "u"
    (by rfl) (by decide) [RotateEnv.healthy [2] 5, RotateEnv.healthy [3] 9] (by decide)

/-- Counterexample to C2 as stated: when `rand.Read` delivers for the rotation the bytes it
delivered for the creation, the rotation of `t = "01"` succeeds and returns `t' = "01"`,
the same secret, and the store still holds a record under `session:hashToken(t)`. -/
theorem create_then_rotate_counterexample :
    CreateRefreshToken toyLib (CreateEnv.healthy [1] 0) sampleStore "u2" =
      (.ok "01", (CreateRefreshToken toyLib (CreateEnv.healthy [1] 0) sampleStore "u2").2) ∧
    RotateRefreshToken toyLib (RotateEnv.healthy [1] 7)
        (CreateRefreshToken toyLib (CreateEnv.healthy [1] 0) sampleStore "u2").2 "01" =
      (.ok ("01", "u2"),
        (RotateRefreshToken toyLib (RotateEnv.healthy [1] 7)
          (CreateRefreshToken toyLib (CreateEnv.healthy [1] 0) sampleStore "u2").2 "01").2) ∧
    ((RotateRefreshToken toyLib (RotateEnv.healthy [1] 7)
        (CreateRefreshToken toyLib (CreateEnv.healthy [1] 0) sampleStore "u2").2 "01").2.get
      (SessionPrefix ++ hashToken toyLib "01")).isSome = true :=
  ⟨by rfl, by rfl, by decide⟩

/-- C2 (amended): with `rand.Read`, `json` and every store round-trip succeeding, and JSON
decoding of an encoded session giving back its user id, `CreateRefreshToken(u)` returns a
secret `t` and `RotateRefreshToken(t)` on the resulting store succeeds and returns
`(t', u)`, after which the store holds a record under `session:hashToken(t')`; when the
hash of `t'` differs from the hash of `t`, `t' ≠ t` and no record is left under
`session:hashToken(t)`. -/
theorem create_then_rotate (lib : Lib) (rdb : Store) (u : String) (b1 b2 : List Nat)
    (now1 now2 : Int)
    (hjson : ∀ s : Session, ∃ d, lib.jsonMarshal s = .ok d ∧
      ∃ s2, lib.jsonUnmarshal d = .ok s2 ∧ s2.UserID = s.UserID) :
    ∃ rdb1 rdb2,
      CreateRefreshToken lib (CreateEnv.healthy b1 now1) rdb u = (.ok (hexEncode b1), rdb1) ∧
      RotateRefreshToken lib (RotateEnv.healthy b2 now2) rdb1 (hexEncode b1) =
        (.ok (hexEncode b2, u), rdb2) ∧
      (rdb2.get (SessionPrefix ++ hashToken lib (hexEncode b2))).isSome = true ∧
      (hashToken lib (hexEncode b2) ≠ hashToken lib (hexEncode b1) →
        hexEncode b2 ≠ hexEncode b1 ∧
        rdb2.get (SessionPrefix ++ hashToken lib (hexEncode b1)) = none) := by
  obtain ⟨d1, hm1, s2, hu1, hid⟩ := hjson ⟨u, now1 + RefreshTokenTTL⟩
  obtain ⟨d2, hm2, _⟩ := hjson ⟨u, now2 + RefreshTokenTTL⟩
  have hid2 : s2.UserID = u := hid
  refine ⟨rdb.set (SessionPrefix ++ hashToken lib (hexEncode b1)) d1 RefreshTokenTTL,
    ((rdb.set (SessionPrefix ++ hashToken lib (hexEncode b1)) d1 RefreshTokenTTL).del
      (SessionPrefix ++ hashToken lib (hexEncode b1))).set
      (SessionPrefix ++ hashToken lib (hexEncode b2)) d2 RefreshTokenTTL, ?_, ?_, ?_, ?_⟩
  · simp [CreateRefreshToken, generateRandomToken, CreateEnv.healthy, hm1, redisSet]
  · simp [RotateRefreshToken, RotateEnv.healthy, redisGet, Store.get_set_self, hu1, redisDel,
      CreateRefreshToken, generateRandomToken, CreateEnv.healthy, hid2, hm2, redisSet]
  · rw [Store.get_set_self]; rfl
  · intro hfresh
    have hne : SessionPrefix ++ hashToken lib (hexEncode b2) ≠
        SessionPrefix ++ hashToken lib (hexEncode b1) :=
      fun hc => hfresh ((sessionKey_inj _ _).mp hc)
    refine ⟨fun hc => hfresh (by rw [hc]), ?_⟩
    rw [Store.get_set_other _ _ _ _ _ hne, Store.get_del_self]

/-- Instance of `create_then_rotate` on the sample store with the toy library, with two
secrets that hash differently. -/
theorem create_then_rotate_witness :
    hashToken toyLib (hexEncode [2]) ≠ hashToken toyLib (hexEncode [1]) ∧
    ∃ rdb1 rdb2,
      CreateRefreshToken toyLib (CreateEnv.healthy [1] 0) sampleStore "u2" =
        (.ok (hexEncode [1]), rdb1) ∧
      RotateRefreshToken toyLib (RotateEnv.healthy [2] 7) rdb1 (hexEncode [1]) =
        (.ok (hexEncode [2], "u2"), rdb2) ∧
      (rdb2.get (SessionPrefix ++ hashToken toyLib (hexEncode [2]))).isSome = true ∧
      (hashToken toyLib (hexEncode [2]) ≠ hashToken toyLib (hexEncode [1]) →
        hexEncode [2] ≠ hexEncode [1] ∧
        rdb2.get (SessionPrefix ++ hashToken toyLib (hexEncode [1])) = none) :=
  ⟨by decide, create_then_rotate toyLib sampleStore "u2" [1] [2] 0 7
    (fun s => ⟨s.UserID, rfl, ⟨s.UserID, 0⟩, rfl, rfl⟩)⟩

/-- C3: with the delete round-trip succeeding, `DeleteRefreshToken(t)` returns no error from
any store (holding a record for `t` or not), leaves no record under `session:hashToken(t)`,
and a `RotateRefreshToken(t)` made afterwards whose lookup reaches the store fails with
"invalid or expired refresh token". -/
theorem delete_then_rotate (lib : Lib) (rdb : Store) (t : String)
    (delFault : Option String) (cenv : CreateEnv) :
    (DeleteRefreshToken lib none rdb t).1 = none ∧
    (DeleteRefreshToken lib none rdb t).2.get (SessionPrefix ++ hashToken lib t) = none ∧
    RotateRefreshToken lib ⟨none, delFault, cenv⟩ (DeleteRefreshToken lib none rdb t).2 t =
      (.error "invalid or expired refresh token", (DeleteRefreshToken lib none rdb t).2) := by
  have hdel : (DeleteRefreshToken lib none rdb t).2 =
      rdb.del (SessionPrefix ++ hashToken lib t) := rfl
  refine ⟨rfl, ?_, ?_⟩
  · rw [hdel]; exact Store.get_del_self _ _
  · apply rotate_absent
    · rfl
    · rw [hdel]; exact Store.get_del_self _ _

theorem NewNumericDate_le (t : Int) : NewNumericDate t ≤ t := by
  unfold NewNumericDate second
  omega

theorem NewNumericDate_gt (t : Int) : t - second < NewNumericDate t := by
  unfold NewNumericDate second
  omega

theorem initJWT_ok_inv (lib : JWTLib) (keys0 keys : KeyState) (privPEM pubPEM : String)
    (h : InitJWT lib keys0 privPEM pubPEM = (none, keys)) :
    ∃ priv pub, lib.ParseRSAPrivateKeyFromPEM privPEM = .ok priv ∧
      lib.ParseRSAPublicKeyFromPEM pubPEM = .ok pub ∧ keys = ⟨some priv, some pub⟩ := by
  unfold InitJWT at h
  cases hp : lib.ParseRSAPrivateKeyFromPEM privPEM with
  | error e => simp [hp] at h
  | ok priv =>
    cases hq : lib.ParseRSAPublicKeyFromPEM pubPEM with
    | error e => simp [hp, hq] at h
    | ok pub =>
      simp only [hp, hq, Prod.mk.injEq, true_and] at h
      exact ⟨priv, pub, rfl, rfl, h.symm⟩

theorem toyJWT_matching (priv : RSAPrivateKey) (pub : RSAPublicKey) :
    MatchingKeypair toyJWT priv pub := by
  intro c
  refine ⟨String.mk ('t' :: c.UserID.data), rfl, ?_, ?_⟩
  · intro h
    have := congrArg String.data h
    simp at this
  · intro kf now hkf _ _
    have h1 := hkf ⟨.rsa 256, ⟨String.mk c.UserID.data, {}⟩, false⟩ rfl
    refine ⟨⟨.rsa 256, ⟨String.mk c.UserID.data, {}⟩, true⟩, ?_, rfl, rfl⟩
    simp only [toyJWT, List.tail_cons, h1]

/-- C4: round trip of access tokens. Once `InitJWT` has succeeded on a key pair for which
the JWT library's sign/parse contract holds (a matching RSA pair), for every user id `u`
`GenerateAccessToken(u)` returns a non-empty token, and `ValidateAccessToken` on that
token, at any clock reading from the issuing reading on and less than 15 minutes minus one
second after it, returns exactly `u` without error. -/
theorem jwt_round_trip (lib : JWTLib) (keys0 keys : KeyState) (privPEM pubPEM : String)
    (hinit : InitJWT lib keys0 privPEM pubPEM = (none, keys))
    (hmatch : ∀ priv pub, lib.ParseRSAPrivateKeyFromPEM privPEM = .ok priv →
      lib.ParseRSAPublicKeyFromPEM pubPEM = .ok pub → MatchingKeypair lib priv pub)
    (u : String) (clock : IssueClock) (now : Int)
    (hafter : clock.nowNbf ≤ now) (hsoon : now + second ≤ clock.nowExp + 15 * minute) :
    ∃ tok, GenerateAccessToken lib keys clock u = .ok tok ∧ tok ≠ "" ∧
      ValidateAccessToken lib keys now tok = .ok u := by
  obtain ⟨priv, pub, hp, hq, hk⟩ := initJWT_ok_inv lib keys0 keys privPEM pubPEM hinit
  obtain ⟨tok, hs, hne, hparse⟩ := hmatch priv pub hp hq (accessClaims clock u)
  subst hk
  refine ⟨tok, ?_, hne, ?_⟩
  · simpa [GenerateAccessToken] using hs
  · obtain ⟨t, ht, hvalid, huid⟩ := hparse (keyFunc pub) now
      (fun t hm => by simp [keyFunc, hm])
      (fun e he => by
        have he2 : e = NewNumericDate (clock.nowExp + 15 * minute) := by
          simp [accessClaims] at he; exact he.symm
        have := NewNumericDate_gt (clock.nowExp + 15 * minute)
        rw [he2]; omega)
      (fun n hn => by
        have hn2 : n = NewNumericDate clock.nowNbf := by
          simp [accessClaims] at hn; exact hn.symm
        have := NewNumericDate_le clock.nowNbf
        rw [hn2]; omega)
    have huid2 : t.Claims.UserID = u := huid
    simp [ValidateAccessToken, ht, hvalid, huid2]

/-- Instance of `jwt_round_trip` with the toy library: issue at readings 1000..1002,
validate at 2000. -/
theorem jwt_round_trip_witness :
    ∃ tok, GenerateAccessToken toyJWT ⟨some ⟨⟨3, 65537⟩, 1⟩, some ⟨3, 65537⟩⟩
        ⟨1000, 1001, 1002⟩ "user-123" = .ok tok ∧ tok ≠ "" ∧
      ValidateAccessToken toyJWT ⟨some ⟨⟨3, 65537⟩, 1⟩, some ⟨3, 65537⟩⟩ 2000 tok =
        .ok "user-123" :=
  jwt_round_trip toyJWT ⟨none, none⟩ ⟨some ⟨⟨3, 65537⟩, 1⟩, some ⟨3, 65537⟩⟩ "abc" "xyz"
    (by decide) (fun priv pub _ _ => toyJWT_matching priv pub) "user-123"
    ⟨1000, 1001, 1002⟩ 2000 (by decide) (by decide)

theorem splitChars_ne_nil (sep : Char) (l : List Char) : splitChars sep l ≠ [] := by
  cases l with
  | nil => simp [splitChars]
  | cons c cs =>
    unfold splitChars
    split
    · simp
    · split <;> simp

theorem splitChars_of_not_mem (sep : Char) (l : List Char) (h : sep ∉ l) :
    splitChars sep l = [l] := by
  induction l with
  | nil => rfl
  | cons c cs ih =>
    have hc : c ≠ sep := fun e => h (by simp [e])
    have hcs : sep ∉ cs := fun e => h (List.mem_cons_of_mem _ e)
    simp [splitChars, hc, ih hcs]

theorem splitChars_append (sep : Char) (a b : List Char) (h : sep ∉ a) :
    splitChars sep (a ++ sep :: b) = a :: splitChars sep b := by
  induction a with
  | nil => simp [splitChars]
  | cons c cs ih =>
    have hc : c ≠ sep := fun e => h (by simp [e])
    have hcs : sep ∉ cs := fun e => h (List.mem_cons_of_mem _ e)
    simp [splitChars, hc, ih hcs]

theorem splitChars_no_sep (sep : Char) (l p : List Char) (h : p ∈ splitChars sep l) :
    sep ∉ p := by
  induction l generalizing p with
  | nil =>
    simp [splitChars] at h
    simp [h]
  | cons c cs ih =>
    unfold splitChars at h
    by_cases hc : c = sep
    · simp only [hc, if_true, List.mem_cons] at h
      rcases h with h | h
      · simp [h]
      · exact ih p h
    · simp only [hc, if_false] at h
      cases hs : splitChars sep cs with
      | nil => exact absurd hs (splitChars_ne_nil sep cs)
      | cons q qs =>
        simp only [hs, List.mem_cons] at h
        rcases h with h | h
        · subst h
          have hq := ih q (by simp [hs])
          intro hm
          rcases List.mem_cons.mp hm with e | e
          · exact hc e.symm
          · exact hq e
        · exact ih p (by simp [hs, h])

theorem splitChars_pair (sep : Char) (l a b : List Char) (h : splitChars sep l = [a, b]) :
    l = a ++ sep :: b ∧ sep ∉ b := by
  refine ⟨?_, splitChars_no_sep sep l b (by simp [h])⟩
  induction l generalizing a with
  | nil => simp [splitChars] at h
  | cons c cs ih =>
    unfold splitChars at h
    by_cases hc : c = sep
    · simp only [hc, if_true, List.cons.injEq] at h
      obtain ⟨ha, hb⟩ := h
      subst ha hc
      have hnb := splitChars_no_sep c cs b (by simp [hb])
      have := splitChars_of_not_mem c b hnb
      have hcs : cs = b := by
        by_cases hm : c ∈ cs
        · obtain ⟨x, y, hxy, hx⟩ := List.eq_append_cons_of_mem hm
          rw [hxy, splitChars_append c _ _ hx] at hb
          have := splitChars_ne_nil c y
          simp at hb
          exact absurd hb.2 this
        · rw [splitChars_of_not_mem c cs hm] at hb
          simpa using hb
      simp [hcs]
    · simp only [hc, if_false] at h
      cases hs : splitChars sep cs with
      | nil => exact absurd hs (splitChars_ne_nil sep cs)
      | cons p ps =>
        simp only [hs, List.cons.injEq] at h
        obtain ⟨ha, hb⟩ := h
        subst ha
        rw [hb] at hs
        have h1 := ih p hs
        rw [h1]; rfl

/-- The test `len(parts) == 2 && parts[0] == "Bearer"` holds exactly for the headers
`"Bearer " + tok` with a space-free `tok`, and then `parts[1]` is `tok`. -/
theorem bearer_parts (authHeader tok : String) (htok : ' ' ∉ tok.toList)
    (h : authHeader = "Bearer " ++ tok) :
    stringsSplit authHeader ' ' = ["Bearer", tok] := by
  subst h
  have hl : ("Bearer " ++ tok).toList = "Bearer".toList ++ ' ' :: tok.toList := by
    simp [String.toList, String.data_append]
  unfold stringsSplit
  rw [hl, splitChars_append ' ' _ _ (by decide), splitChars_of_not_mem ' ' _ htok]
  rfl

theorem bearer_of_parts (authHeader : String)
    (hlen : (stringsSplit authHeader ' ').length = 2)
    (hfst : (stringsSplit authHeader ' ').getD 0 "" = "Bearer") :
    ∃ tok : String, ' ' ∉ tok.toList ∧ authHeader = "Bearer " ++ tok := by
  unfold stringsSplit at hlen hfst
  cases hs : splitChars ' ' authHeader.toList with
  | nil => rw [hs] at hlen; simp at hlen
  | cons a rest =>
    cases rest with
    | nil => rw [hs] at hlen; simp at hlen
    | cons b rest2 =>
      cases rest2 with
      | cons _ _ => rw [hs] at hlen; simp at hlen
      | nil =>
        obtain ⟨h1, h2⟩ := splitChars_pair ' ' _ a b hs
        rw [hs] at hfst
        simp only [List.map_cons, List.getD_cons_zero] at hfst
        have ha : a = "Bearer".toList := by
          have := congrArg String.data hfst
          simpa using this
        refine ⟨String.mk b, h2, ?_⟩
        apply String.ext
        rw [String.data_append]
        have : authHeader.data = a ++ ' ' :: b := h1
        rw [this, ha]
        rfl

theorem bearer_ne_empty (tok : String) : "Bearer " ++ tok ≠ "" := by
  intro hc
  have h2 := congrArg String.data hc
  rw [String.data_append] at h2
  exact absurd (congrArg List.length h2) (by simp)

theorem httpError_new (header : Header) (message : String) :
    httpError ResponseWriter.ops (ResponseWriter.new header) message 401 =
      unauthorized header message := rfl

/-- C5: on an unwritten response writer the `Auth` middleware answers 401 and leaves the
application state and the log untouched whatever the downstream handler is (it is never
invoked) in each of these cases: the `Authorization` header is absent or empty (body
"Unauthorized: missing authorization header"); the header is non-empty but not
`"Bearer " + tok` for a space-free `tok` (body "Unauthorized: invalid authorization header
format"); the header has that form but `ValidateAccessToken(tok)` returns an error, whatever
it is (body "Unauthorized: invalid or expired token"). -/
theorem auth_rejects {σ : Type} (lib : JWTLib) (keys : KeyState) (now : Int)
    (next : Handler ResponseWriter σ) (r : Request) (header : Header) (app : σ)
    (logs : List LogEntry) :
    (r.Header.Get "Authorization" = "" →
      Auth ResponseWriter.ops lib keys now next r ⟨ResponseWriter.new header, app, logs⟩ =
        ⟨⟨unauthorized header "Unauthorized: missing authorization header", app, logs⟩,
          none⟩) ∧
    (r.Header.Get "Authorization" ≠ "" →
      (¬ ∃ tok : String, ' ' ∉ tok.toList ∧ r.Header.Get "Authorization" = "Bearer " ++ tok) →
      Auth ResponseWriter.ops lib keys now next r ⟨ResponseWriter.new header, app, logs⟩ =
        ⟨⟨unauthorized header "Unauthorized: invalid authorization header format", app, logs⟩,
          none⟩) ∧
    (∀ tok e, ' ' ∉ tok.toList → r.Header.Get "Authorization" = "Bearer " ++ tok →
      ValidateAccessToken lib keys now tok = .error e →
      Auth ResponseWriter.ops lib keys now next r ⟨ResponseWriter.new header, app, logs⟩ =
        ⟨⟨unauthorized header "Unauthorized: invalid or expired token", app, logs⟩, none⟩) := by
  refine ⟨?_, ?_, ?_⟩
  · intro h
    simp only [Auth, h, if_true, httpError_new]
  · intro hne hform
    have hparts : (stringsSplit (r.Header.Get "Authorization") ' ').length ≠ 2 ∨
        (stringsSplit (r.Header.Get "Authorization") ' ').getD 0 "" ≠ "Bearer" := by
      by_contra hc
      push_neg at hc
      exact hform (bearer_of_parts _ hc.1 hc.2)
    simp only [Auth, hne, if_false, hparts, if_true, httpError_new]
  · intro tok e htok hhdr hval
    have hne : r.Header.Get "Authorization" ≠ "" := by
      rw [hhdr]
      exact bearer_ne_empty tok
    have hp := bearer_parts _ tok htok hhdr
    simp [Auth, hne, hp, hval, httpError_new]

/-- Instance of `auth_rejects`: the three rejections of the tests (no header, a `Token`
scheme, a token that does not validate). -/
theorem auth_rejects_witness :
    Auth ResponseWriter.ops toyJWT sampleKeys 0 recordUser (getRequest [])
        ⟨ResponseWriter.new [], [], []⟩ =
      ⟨⟨unauthorized [] "Unauthorized: missing authorization header", [], []⟩, none⟩ ∧
    Auth ResponseWriter.ops toyJWT sampleKeys 0 recordUser
        (getRequest [("Authorization", "Token tuser-123")]) ⟨ResponseWriter.new [], [], []⟩ =
      ⟨⟨unauthorized [] "Unauthorized: invalid authorization header format", [], []⟩, none⟩ ∧
    Auth ResponseWriter.ops toyJWT ⟨none, none⟩ 0 recordUser
        (getRequest [("Authorization", "Bearer invalid-token")])
        ⟨ResponseWriter.new [], [], []⟩ =
      ⟨⟨unauthorized [] "Unauthorized: invalid or expired token", [], []⟩, none⟩ :=
  ⟨(auth_rejects toyJWT sampleKeys 0 recordUser (getRequest []) [] [] []).1 (by decide),
   (auth_rejects toyJWT sampleKeys 0 recordUser
      (getRequest [("Authorization", "Token tuser-123")]) [] [] []).2.1 (by decide)
      (by
        rintro ⟨tok, _, h⟩
        have hget : (getRequest [("Authorization", "Token tuser-123")]).Header.Get
            "Authorization" = "Token tuser-123" := by decide
        rw [hget] at h
        have h2 := congrArg String.data h
        rw [String.data_append] at h2
        exact absurd (congrArg List.head? h2) (by simp)),
   (auth_rejects toyJWT ⟨none, none⟩ 0 recordUser
      (getRequest [("Authorization", "Bearer invalid-token")]) [] [] []).2.2
      "invalid-token" "JWT public key not initialized" (by decide) (by decide) (by rfl)⟩

/-- C6: when the `Authorization` header is `"Bearer " + tok` (with `tok` free of spaces, as
every compact JWT is) and `ValidateAccessToken(tok)` returns `u` without error, the `Auth`
middleware does exactly what one call of the downstream handler does on the untouched
writer, application state and log, with the request context extended so that `GetUserID`
returns exactly `u`; it writes nothing itself. -/
theorem auth_accepts {W σ : Type} (ops : WriterOps W) (lib : JWTLib) (keys : KeyState)
    (now : Int) (next : Handler W σ) (r : Request) (world : World W σ) (tok u : String)
    (hhdr : r.Header.Get "Authorization" = "Bearer " ++ tok) (htok : ' ' ∉ tok.toList)
    (hval : ValidateAccessToken lib keys now tok = .ok u) :
    Auth ops lib keys now next r world =
      next (r.WithContext (r.ctx.WithValue UserIDKey (.str u))) world ∧
    GetUserID (r.WithContext (r.ctx.WithValue UserIDKey (.str u))).ctx = u := by
  have hne : r.Header.Get "Authorization" ≠ "" := by
    rw [hhdr]
    exact bearer_ne_empty tok
  have hp := bearer_parts _ tok htok hhdr
  constructor
  · simp [Auth, hne, hp, hval]
  · simp [GetUserID, Request.WithContext, Context.WithValue, Context.Value]

/-- Instance of `auth_accepts`: a token of the toy library for "user-123". -/
theorem auth_accepts_witness :
    Auth ResponseWriter.ops toyJWT sampleKeys 0 recordUser
        (getRequest [("Authorization", "Bearer tuser-123")]) ⟨ResponseWriter.new [], [], []⟩ =
      recordUser ((getRequest [("Authorization", "Bearer tuser-123")]).WithContext
        (Context.WithValue [] UserIDKey (.str "user-123"))) ⟨ResponseWriter.new [], [], []⟩ ∧
    GetUserID ((getRequest [("Authorization", "Bearer tuser-123")]).WithContext
        (Context.WithValue [] UserIDKey (.str "user-123"))).ctx = "user-123" :=
  auth_accepts ResponseWriter.ops toyJWT sampleKeys 0 recordUser
    (getRequest [("Authorization", "Bearer tuser-123")]) ⟨ResponseWriter.new [], [], []⟩
    "tuser-123" "user-123" (by decide) (by decide) (by rfl)

/-- Counterexample to C1 as stated: after a successful rotation of "a", a repeated rotation
whose lookup round-trip fails returns the store error, not "invalid or expired refresh
token". -/
theorem rotate_single_use_counterexample :
    RotateRefreshToken toyLib (RotateEnv.healthy [1] 0) sampleStore "a" =
      (.ok ("01", "u"),
        (RotateRefreshToken toyLib (RotateEnv.healthy [1] 0) sampleStore "a").2) ∧
    RotateRefreshToken toyLib ⟨some "connection refused", none, CreateEnv.healthy [2] 5⟩
        (RotateRefreshToken toyLib (RotateEnv.healthy [1] 0) sampleStore "a").2 "a" =
      (.error "failed to get session from redis: connection refused",
        (RotateRefreshToken toyLib (RotateEnv.healthy [1] 0) sampleStore "a").2) ∧
    "failed to get session from redis: connection refused" ≠
      "invalid or expired refresh token" :=
  ⟨by rfl, by rfl, by decide⟩

theorem find_filter_key (h : Header) (k k2 : String) (hk : k ≠ k2) :
    (h.filter (fun p => decide (p.1 ≠ k))).find? (fun p => decide (p.1 = k2)) =
      h.find? (fun p => decide (p.1 = k2)) := by
  rw [List.find?_filter]
  congr 1
  funext a
  by_cases h2 : a.1 = k2
  · have h1 : a.1 ≠ k := fun e => hk (e.symm.trans h2)
    simp [h1, h2, Ne.symm hk]
  · simp [h2]

theorem Header.Get_Set_self (h : Header) (key value : String) :
    (h.Set key value).Get key = value := by
  simp [Header.Get, Header.Set, List.find?]

theorem Header.Get_Set_other (h : Header) (key other value : String)
    (hne : CanonicalMIMEHeaderKey key ≠ CanonicalMIMEHeaderKey other) :
    (h.Set key value).Get other = h.Get other := by
  unfold Header.Get Header.Set
  rw [List.find?_cons]
  simp only [hne, decide_False]
  rw [find_filter_key h _ _ hne]

theorem uuidString_ne_empty (b : List Nat) : uuidString b ≠ "" := by
  intro hc
  have h2 := congrArg String.data hc
  unfold uuidString at h2
  simp only [String.data_append] at h2
  exact absurd (congrArg List.length h2) (by simp)

theorem originListed_iff (origin : String) (l : List String) :
    originListed origin l = true ↔ origin ∈ l := by
  induction l with
  | nil => simp [originListed]
  | cons o rest ih =>
    unfold originListed
    by_cases h : o = origin
    · simp [h]
    · have h2 : origin ≠ o := fun e => h e.symm
      simp [h, h2, ih]

theorem setCORSHeaders_header (w : ResponseWriter) (origin : String) :
    (setCORSHeaders ResponseWriter.ops w origin).header =
      ((((w.header.Set "Access-Control-Allow-Origin" origin).Set
        "Access-Control-Allow-Methods" "GET, POST, PUT, DELETE, PATCH, OPTIONS").Set
        "Access-Control-Allow-Headers"
        "Accept, Content-Type, Content-Length, Accept-Encoding, X-CSRF-Token, Authorization, X-Request-ID").Set
        "Access-Control-Allow-Credentials" "true").Set "Access-Control-Max-Age" "300" := rfl

/-- C7: for every configuration and every request with a non-empty `Origin` `o`: when `o`
is allowed, the writer that `CORS` hands to the downstream handler (or, for OPTIONS,
answers on) carries `Access-Control-Allow-Origin` equal to `o` together with
`-Allow-Methods`, `-Allow-Headers`, `-Allow-Credentials` ("true") and `-Max-Age` ("300");
when `o` is not allowed, the header map is left as it was; in both cases a non-OPTIONS
request is passed to the downstream handler, exactly once and with nothing else changed. -/
theorem cors_headers {σ : Type} (allowedOrigins : String) (next : Handler ResponseWriter σ)
    (r : Request) (world : World ResponseWriter σ)
    (horigin : r.Header.Get "Origin" ≠ "") :
    (corsAllow allowedOrigins (r.Header.Get "Origin") = true →
      ∃ w : ResponseWriter,
        w.header.Get "Access-Control-Allow-Origin" = r.Header.Get "Origin" ∧
        w.header.Get "Access-Control-Allow-Methods" =
          "GET, POST, PUT, DELETE, PATCH, OPTIONS" ∧
        w.header.Get "Access-Control-Allow-Headers" =
          "Accept, Content-Type, Content-Length, Accept-Encoding, X-CSRF-Token, Authorization, X-Request-ID" ∧
        w.header.Get "Access-Control-Allow-Credentials" = "true" ∧
        w.header.Get "Access-Control-Max-Age" = "300" ∧
        w.wroteHeader = world.w.wroteHeader ∧ w.status = world.w.status ∧
        w.body = world.w.body ∧
        (r.Method ≠ "OPTIONS" →
          CORS ResponseWriter.ops allowedOrigins next r world =
            next r { world with w := w }) ∧
        (r.Method = "OPTIONS" →
          CORS ResponseWriter.ops allowedOrigins next r world =
            ⟨{ world with w := w.WriteHeader 204 }, none⟩)) ∧
    (corsAllow allowedOrigins (r.Header.Get "Origin") = false →
      (r.Method ≠ "OPTIONS" →
        CORS ResponseWriter.ops allowedOrigins next r world = next r world) ∧
      (r.Method = "OPTIONS" →
        CORS ResponseWriter.ops allowedOrigins next r world =
          ⟨{ world with w := world.w.WriteHeader 204 }, none⟩) ∧
      (world.w.WriteHeader 204).header = world.w.header) := by
  constructor
  · intro hallow
    refine ⟨setCORSHeaders ResponseWriter.ops world.w (r.Header.Get "Origin"),
      ?_, ?_, ?_, ?_, ?_, rfl, rfl, rfl, ?_, ?_⟩
    · rw [setCORSHeaders_header,
        Header.Get_Set_other _ _ _ _ (by decide), Header.Get_Set_other _ _ _ _ (by decide),
        Header.Get_Set_other _ _ _ _ (by decide), Header.Get_Set_other _ _ _ _ (by decide),
        Header.Get_Set_self]
    · rw [setCORSHeaders_header,
        Header.Get_Set_other _ _ _ _ (by decide), Header.Get_Set_other _ _ _ _ (by decide),
        Header.Get_Set_other _ _ _ _ (by decide), Header.Get_Set_self]
    · rw [setCORSHeaders_header,
        Header.Get_Set_other _ _ _ _ (by decide), Header.Get_Set_other _ _ _ _ (by decide),
        Header.Get_Set_self]
    · rw [setCORSHeaders_header, Header.Get_Set_other _ _ _ _ (by decide),
        Header.Get_Set_self]
    · rw [setCORSHeaders_header, Header.Get_Set_self]
    · intro hm
      simp only [CORS, horigin, if_false, hallow, if_true, hm]
    · intro hm
      simp only [CORS, horigin, if_false, hallow, if_true, hm]
      rfl
  · intro hdeny
    refine ⟨?_, ?_, ?_⟩
    · intro hm
      simp [CORS, horigin, hdeny, hm]
    · intro hm
      simp only [CORS, horigin, if_false, hdeny, hm, if_true]
      rfl
    · unfold ResponseWriter.WriteHeader
      split <;> rfl

/-- Instance of `cors_headers`: the allowed and the disallowed origin of the tests. -/
theorem cors_headers_witness :
    (∃ w : ResponseWriter,
        w.header.Get "Access-Control-Allow-Origin" =
          (originRequest "GET" "http://localhost:3000").Header.Get "Origin" ∧
        w.header.Get "Access-Control-Allow-Methods" =
          "GET, POST, PUT, DELETE, PATCH, OPTIONS" ∧
        w.header.Get "Access-Control-Allow-Headers" =
          "Accept, Content-Type, Content-Length, Accept-Encoding, X-CSRF-Token, Authorization, X-Request-ID" ∧
        w.header.Get "Access-Control-Allow-Credentials" = "true" ∧
        w.header.Get "Access-Control-Max-Age" = "300" ∧
        w.wroteHeader = false ∧ w.status = 200 ∧ w.body = "" ∧
        ((originRequest "GET" "http://localhost:3000").Method ≠ "OPTIONS" →
          CORS ResponseWriter.ops sampleOrigins okHandler
              (originRequest "GET" "http://localhost:3000") ⟨ResponseWriter.new [], 0, []⟩ =
            okHandler (originRequest "GET" "http://localhost:3000") ⟨w, 0, []⟩) ∧
        ((originRequest "GET" "http://localhost:3000").Method = "OPTIONS" →
          CORS ResponseWriter.ops sampleOrigins okHandler
              (originRequest "GET" "http://localhost:3000") ⟨ResponseWriter.new [], 0, []⟩ =
            ⟨⟨w.WriteHeader 204, 0, []⟩, none⟩)) ∧
    CORS ResponseWriter.ops sampleOrigins okHandler
        (originRequest "GET" "http://disallowed.com") ⟨ResponseWriter.new [], 0, []⟩ =
      okHandler (originRequest "GET" "http://disallowed.com") ⟨ResponseWriter.new [], 0, []⟩ :=
  ⟨(cors_headers sampleOrigins okHandler (originRequest "GET" "http://localhost:3000")
      ⟨ResponseWriter.new [], 0, []⟩ (by decide)).1 (by decide),
   ((cors_headers sampleOrigins okHandler (originRequest "GET" "http://disallowed.com")
      ⟨ResponseWriter.new [], 0, []⟩ (by decide)).2 (by decide)).1 (by decide)⟩

/-- Counterexample to C8 as stated: an origin is allowed although it equals none of the
comma-separated entries of the configuration, because the entry carries a leading space. -/
theorem cors_allow_counterexample :
    corsAllow "http://a.test, http://b.test" "http://b.test" = true ∧
    "http://a.test, http://b.test" ≠ "*" ∧
    "http://b.test" ∉ stringsSplit "http://a.test, http://b.test" ',' := by
  decide

/-- C8 (amended): `CORS` treats an origin `o` as allowed if and only if the configuration
string is exactly "*" or `o` equals one of its comma-separated entries after the entry's
leading and trailing white space has been removed. -/
theorem cors_allow_iff (allowedOrigins origin : String) :
    corsAllow allowedOrigins origin = true ↔
      allowedOrigins = "*" ∨ origin ∈ (stringsSplit allowedOrigins ',').map TrimSpace := by
  unfold corsAllow
  by_cases h : allowedOrigins = "*"
  · simp [h]
  · simp only [h, if_false, false_or]
    exact originListed_iff origin (corsOrigins allowedOrigins)

/-- Counterexample to C9 as stated: an OPTIONS request without `Origin` reaches the
downstream handler, which answers 200 "ok". -/
theorem cors_preflight_counterexample :
    (Request.mk "OPTIONS" "/test" [] []).Header.Get "Origin" = "" ∧
    (CORS ResponseWriter.ops sampleOrigins okHandler ⟨"OPTIONS", "/test", [], []⟩
      ⟨ResponseWriter.new [], 0, []⟩).world.w.status = 200 ∧
    (CORS ResponseWriter.ops sampleOrigins okHandler ⟨"OPTIONS", "/test", [], []⟩
      ⟨ResponseWriter.new [], 0, []⟩).world.w.body = "ok" ∧
    (CORS ResponseWriter.ops sampleOrigins okHandler ⟨"OPTIONS", "/test", [], []⟩
      ⟨ResponseWriter.new [], 0, []⟩).world.app = 1 := by
  decide

/-- C9 (amended): for every allow-list configuration and every OPTIONS request that
carries a non-empty `Origin` header, `CORS` answers on an unwritten writer with status 204
and an empty body and does not invoke the downstream handler (application state and log
are untouched, whatever the handler is). -/
theorem cors_preflight {σ : Type} (allowedOrigins : String) (next : Handler ResponseWriter σ)
    (r : Request) (header : Header) (app : σ) (logs : List LogEntry)
    (horigin : r.Header.Get "Origin" ≠ "") (hmethod : r.Method = "OPTIONS") :
    ∃ w : ResponseWriter,
      CORS ResponseWriter.ops allowedOrigins next r ⟨ResponseWriter.new header, app, logs⟩ =
        ⟨⟨w, app, logs⟩, none⟩ ∧
      w.wroteHeader = true ∧ w.status = 204 ∧ w.body = "" := by
  cases hallow : corsAllow allowedOrigins (r.Header.Get "Origin") with
  | true =>
    refine ⟨(setCORSHeaders ResponseWriter.ops (ResponseWriter.new header)
      (r.Header.Get "Origin")).WriteHeader 204, ?_, rfl, rfl, rfl⟩
    simp only [CORS, horigin, if_false, hallow, if_true, hmethod]
    rfl
  | false =>
    refine ⟨(ResponseWriter.new header).WriteHeader 204, ?_, rfl, rfl, rfl⟩
    simp only [CORS, horigin, if_false, hallow, hmethod, if_true]
    rfl

/-- Instance of `cors_preflight`: the pre-flight request of the tests. -/
theorem cors_preflight_witness :
    ∃ w : ResponseWriter,
      CORS ResponseWriter.ops sampleOrigins okHandler
          (originRequest "OPTIONS" "http://localhost:3000") ⟨ResponseWriter.new [], 0, []⟩ =
        ⟨⟨w, 0, []⟩, none⟩ ∧
      w.wroteHeader = true ∧ w.status = 204 ∧ w.body = "" :=
  cors_preflight sampleOrigins okHandler (originRequest "OPTIONS" "http://localhost:3000")
    [] 0 [] (by decide) (by decide)

/-- C10: for every request, `RequestID` calls the downstream handler exactly once, with a
context whose `GetRequestID` value is a non-empty id and with the `X-Request-ID` response
header already set to that same id; the id is the inbound `X-Request-ID` header when that
is non-empty, and the string of a newly generated UUID otherwise. -/
theorem requestID_attached {σ : Type} (rand : List Nat) (next : Handler ResponseWriter σ)
    (r : Request) (world : World ResponseWriter σ) :
    ∃ (id : String) (w : ResponseWriter),
      RequestID ResponseWriter.ops rand next r world =
        next (r.WithContext (r.ctx.WithValue RequestIDKey (.str id))) { world with w := w } ∧
      GetRequestID (r.WithContext (r.ctx.WithValue RequestIDKey (.str id))).ctx = id ∧
      w.header.Get RequestIDHeader = id ∧ id ≠ "" ∧
      w.wroteHeader = world.w.wroteHeader ∧ w.status = world.w.status ∧
      w.body = world.w.body ∧
      (r.Header.Get RequestIDHeader ≠ "" → id = r.Header.Get RequestIDHeader) ∧
      (r.Header.Get RequestIDHeader = "" → id = uuidString (uuidNew rand)) := by
  by_cases h : r.Header.Get RequestIDHeader = ""
  · refine ⟨uuidString (uuidNew rand),
      { world.w with header := world.w.header.Set RequestIDHeader (uuidString (uuidNew rand)) },
      ?_, ?_, Header.Get_Set_self _ _ _, uuidString_ne_empty _, rfl, rfl, rfl,
      fun hc => absurd h hc, fun _ => rfl⟩
    · simp only [RequestID, h, if_true]
      rfl
    · simp [GetRequestID, Request.WithContext, Context.WithValue, Context.Value]
  · refine ⟨r.Header.Get RequestIDHeader,
      { world.w with header := world.w.header.Set RequestIDHeader (r.Header.Get RequestIDHeader) },
      ?_, ?_, Header.Get_Set_self _ _ _, h, rfl, rfl, rfl,
      fun _ => rfl, fun hc => absurd hc h⟩
    · simp only [RequestID, h, if_false]
      rfl
    · simp [GetRequestID, Request.WithContext, Context.WithValue, Context.Value]

/-- C11, the code at the failing input: a handler that has sent status 200 and part of the
body before it panics with a value other than `http.ErrAbortHandler` leaves, through
`Recoverer`, a response with status 200 (not 500) whose body is the partial body followed
by "Internal Server Error": the `WriteHeader(500)` of `Recoverer` comes after the status
line went out and is ignored. -/
theorem recoverer_started_response :
    (partialThenPanic.handler ResponseWriter.ops (getRequest [])
      ⟨ResponseWriter.new [], 0, []⟩).panic = some (.other "boom") ∧
    (Recoverer ResponseWriter.ops "stack" (partialThenPanic.handler ResponseWriter.ops)
      (getRequest []) ⟨ResponseWriter.new [], 0, []⟩).world.w.status = 200 ∧
    (Recoverer ResponseWriter.ops "stack" (partialThenPanic.handler ResponseWriter.ops)
      (getRequest []) ⟨ResponseWriter.new [], 0, []⟩).world.w.body =
        "partialInternal Server Error" := by
  decide

/-- Where `Recoverer` does what its documentation says: for every downstream handler that
panics with a value other than `http.ErrAbortHandler` before anything was written to the
response, `Recoverer` does not propagate the panic and leaves exactly one response, with
status 500 and body "Internal Server Error"; when the panic value is
`http.ErrAbortHandler`, `Recoverer` re-panics with that same value and writes nothing (its
outcome is the handler's outcome). -/
theorem recoverer_contains {σ : Type} (stack : String) (next : Handler ResponseWriter σ)
    (r : Request) (world : World ResponseWriter σ) :
    (∀ v, (next r world).panic = some (.other v) →
      (next r world).world.w.wroteHeader = false → (next r world).world.w.body = "" →
      (Recoverer ResponseWriter.ops stack next r world).panic = none ∧
      (Recoverer ResponseWriter.ops stack next r world).world.w.wroteHeader = true ∧
      (Recoverer ResponseWriter.ops stack next r world).world.w.status = 500 ∧
      (Recoverer ResponseWriter.ops stack next r world).world.w.body =
        "Internal Server Error" ∧
      (Recoverer ResponseWriter.ops stack next r world).world.w.header =
        (next r world).world.w.header ∧
      (Recoverer ResponseWriter.ops stack next r world).world.app =
        (next r world).world.app) ∧
    ((next r world).panic = some .ErrAbortHandler →
      Recoverer ResponseWriter.ops stack next r world = next r world) := by
  constructor
  · intro v hp hw hb
    simp only [Recoverer, hp]
    simp [ResponseWriter.ops, ResponseWriter.WriteHeader, ResponseWriter.Write, hw, hb,
      StatusText]
  · intro hp
    simp only [Recoverer, hp]
    simp only [if_true]
    cases hn : next r world with
    | mk w p =>
      rw [hn] at hp
      simp only at hp
      rw [hp]

/-- Instance of `recoverer_contains`: the two panicking handlers of the tests. -/
theorem recoverer_contains_witness :
    ((Recoverer ResponseWriter.ops "stack"
        ((panicsWith (.other "something went wrong")).handler ResponseWriter.ops)
        (getRequest []) ⟨ResponseWriter.new [], 0, []⟩).panic = none ∧
      (Recoverer ResponseWriter.ops "stack"
        ((panicsWith (.other "something went wrong")).handler ResponseWriter.ops)
        (getRequest []) ⟨ResponseWriter.new [], 0, []⟩).world.w.wroteHeader = true ∧
      (Recoverer ResponseWriter.ops "stack"
        ((panicsWith (.other "something went wrong")).handler ResponseWriter.ops)
        (getRequest []) ⟨ResponseWriter.new [], 0, []⟩).world.w.status = 500 ∧
      (Recoverer ResponseWriter.ops "stack"
        ((panicsWith (.other "something went wrong")).handler ResponseWriter.ops)
        (getRequest []) ⟨ResponseWriter.new [], 0, []⟩).world.w.body =
          "Internal Server Error" ∧
      (Recoverer ResponseWriter.ops "stack"
        ((panicsWith (.other "something went wrong")).handler ResponseWriter.ops)
        (getRequest []) ⟨ResponseWriter.new [], 0, []⟩).world.w.header =
          (((panicsWith (.other "something went wrong")).handler ResponseWriter.ops)
            (getRequest []) ⟨ResponseWriter.new [], 0, []⟩).world.w.header ∧
      (Recoverer ResponseWriter.ops "stack"
        ((panicsWith (.other "something went wrong")).handler ResponseWriter.ops)
        (getRequest []) ⟨ResponseWriter.new [], 0, []⟩).world.app =
          (((panicsWith (.other "something went wrong")).handler ResponseWriter.ops)
            (getRequest []) ⟨ResponseWriter.new [], 0, []⟩).world.app) ∧
    Recoverer ResponseWriter.ops "stack"
        ((panicsWith .ErrAbortHandler).handler ResponseWriter.ops)
        (getRequest []) ⟨ResponseWriter.new [], 0, []⟩ =
      ((panicsWith .ErrAbortHandler).handler ResponseWriter.ops)
        (getRequest []) ⟨ResponseWriter.new [], 0, []⟩ :=
  ⟨(recoverer_contains "stack"
      ((panicsWith (.other "something went wrong")).handler ResponseWriter.ops)
      (getRequest []) ⟨ResponseWriter.new [], 0, []⟩).1 "something went wrong"
      (by rfl) (by rfl) (by rfl),
   (recoverer_contains "stack" ((panicsWith .ErrAbortHandler).handler ResponseWriter.ops)
      (getRequest []) ⟨ResponseWriter.new [], 0, []⟩).2 (by rfl)⟩

theorem ResponseWriter.wroteHeader_WriteHeader (w : ResponseWriter) (code : Nat) :
    (w.WriteHeader code).wroteHeader = true := by
  unfold ResponseWriter.WriteHeader
  by_cases h : w.wroteHeader = true
  · simp [h]
  · simp [h]

theorem ResponseWriter.WriteHeader_of_wrote (w : ResponseWriter) (code : Nat)
    (h : w.wroteHeader = true) : w.WriteHeader code = w := by
  simp [ResponseWriter.WriteHeader, h]

theorem ResponseWriter.Write_WriteHeader (w : ResponseWriter) (buf : String) :
    (w.WriteHeader 200).Write buf = w.Write buf := by
  by_cases h : w.wroteHeader = true
  · rw [ResponseWriter.WriteHeader_of_wrote w 200 h]
  · simp [ResponseWriter.Write, ResponseWriter.wroteHeader_WriteHeader, h]

theorem ResponseWriter.wroteHeader_Write (w : ResponseWriter) (buf : String) :
    (w.Write buf).wroteHeader = true := by
  by_cases h : w.wroteHeader = true
  · simp [ResponseWriter.Write, h]
  · simp [ResponseWriter.Write, h, ResponseWriter.wroteHeader_WriteHeader]

/-- One call through the wrapper of `Logger` reaches the wrapped recorder as the same call
made directly, and keeps the wrapper's `wroteHeader` flag below the recorder's. -/
theorem wrapped_call (c : WriterCall) (rw : responseWriter ResponseWriter)
    (hinv : rw.wroteHeader = true → rw.ResponseWriter.wroteHeader = true) :
    (c.run (responseWriter.ops ResponseWriter.ops) rw).ResponseWriter =
        c.run ResponseWriter.ops rw.ResponseWriter ∧
      ((c.run (responseWriter.ops ResponseWriter.ops) rw).wroteHeader = true →
        (c.run ResponseWriter.ops rw.ResponseWriter).wroteHeader = true) := by
  cases c with
  | headerSet k v =>
    exact ⟨rfl, fun h => hinv h⟩
  | headerAdd k v =>
    exact ⟨rfl, fun h => hinv h⟩
  | WriteHeader code =>
    by_cases h : rw.wroteHeader = true
    · have hu := hinv h
      refine ⟨?_, fun _ => ?_⟩
      · simp [WriterCall.run, responseWriter.ops, responseWriter.WriteHeader, h,
          ResponseWriter.ops, ResponseWriter.WriteHeader_of_wrote _ _ hu]
      · simp [WriterCall.run, ResponseWriter.ops, ResponseWriter.wroteHeader_WriteHeader]
    · refine ⟨?_, fun _ => ?_⟩
      · simp [WriterCall.run, responseWriter.ops, responseWriter.WriteHeader, h,
          ResponseWriter.ops]
      · simp [WriterCall.run, ResponseWriter.ops, ResponseWriter.wroteHeader_WriteHeader]
  | Write buf =>
    by_cases h : rw.wroteHeader = true
    · refine ⟨?_, fun _ => ?_⟩
      · simp [WriterCall.run, responseWriter.ops, responseWriter.Write, h, ResponseWriter.ops]
      · simp [WriterCall.run, ResponseWriter.ops, ResponseWriter.wroteHeader_Write]
    · refine ⟨?_, fun _ => ?_⟩
      · simp [WriterCall.run, responseWriter.ops, responseWriter.Write,
          responseWriter.WriteHeader, h, ResponseWriter.ops, ResponseWriter.Write_WriteHeader]
      · simp [WriterCall.run, ResponseWriter.ops, ResponseWriter.wroteHeader_Write]

theorem runCalls_wrapped (calls : List WriterCall) (rw : responseWriter ResponseWriter)
    (hinv : rw.wroteHeader = true → rw.ResponseWriter.wroteHeader = true) :
    (runCalls (responseWriter.ops ResponseWriter.ops) calls rw).ResponseWriter =
      runCalls ResponseWriter.ops calls rw.ResponseWriter := by
  induction calls generalizing rw with
  | nil => rfl
  | cons c cs ih =>
    obtain ⟨h1, h2⟩ := wrapped_call c rw hinv
    simp only [runCalls]
    rw [ih _ (fun h => by rw [h1]; exact h2 h), h1]

/-- On the recording writer of the tests, which takes the first `WriteHeader` of any code
as the status of the response, the status code and the body are the same through
`Logger(next)` as from `next` called directly, for every sequence of calls of the
downstream handler; application state and panic are the same too. -/
theorem logger_keeps_recorded_response {σ : Type} (clock : LoggerClock) (b : Behaviour σ)
    (r : Request) (world : World ResponseWriter σ) :
    (Logger ResponseWriter.ops clock (b.handler (responseWriter.ops ResponseWriter.ops))
        r world).world.w.status = (b.handler ResponseWriter.ops r world).world.w.status ∧
    (Logger ResponseWriter.ops clock (b.handler (responseWriter.ops ResponseWriter.ops))
        r world).world.w.body = (b.handler ResponseWriter.ops r world).world.w.body ∧
    (Logger ResponseWriter.ops clock (b.handler (responseWriter.ops ResponseWriter.ops))
        r world).world.app = (b.handler ResponseWriter.ops r world).world.app ∧
    (Logger ResponseWriter.ops clock (b.handler (responseWriter.ops ResponseWriter.ops))
        r world).panic = (b.handler ResponseWriter.ops r world).panic := by
  have hw := runCalls_wrapped (b.calls r world.app) (wrapResponseWriter world.w)
    (fun h => by simp [wrapResponseWriter] at h)
  cases hp : b.panic r world.app with
  | none =>
    simp only [Logger, Behaviour.handler, hp]
    exact ⟨congrArg ResponseWriter.status hw, congrArg ResponseWriter.body hw, trivial,
      trivial⟩
  | some p =>
    simp only [Logger, Behaviour.handler, hp]
    exact ⟨congrArg ResponseWriter.status hw, congrArg ResponseWriter.body hw, trivial,
      trivial⟩

/-- C15, the code at the failing input: a handler that sends the informational status 103,
then status 404, then a body, served on the writer of the HTTP server. Called directly it
leaves status 404; through `Logger` the wrapper takes the 103 for the status of the
response and drops the `WriteHeader(404)`, so that the body goes out with status 200. The
body is the same, and the record `Logger` writes carries the 103. -/
theorem logger_drops_status :
    (earlyHints.handler ServerWriter.ops (getRequest [])
      ⟨ServerWriter.new [], 0, []⟩).world.w.status = 404 ∧
    (earlyHints.handler ServerWriter.ops (getRequest [])
      ⟨ServerWriter.new [], 0, []⟩).world.w.body = "nf" ∧
    (Logger ServerWriter.ops ⟨0, 5⟩ (earlyHints.handler (responseWriter.ops ServerWriter.ops))
      (getRequest []) ⟨ServerWriter.new [], 0, []⟩).world.w.status = 200 ∧
    (Logger ServerWriter.ops ⟨0, 5⟩ (earlyHints.handler (responseWriter.ops ServerWriter.ops))
      (getRequest []) ⟨ServerWriter.new [], 0, []⟩).world.w.body = "nf" ∧
    (Logger ServerWriter.ops ⟨0, 5⟩ (earlyHints.handler (responseWriter.ops ServerWriter.ops))
      (getRequest []) ⟨ServerWriter.new [], 0, []⟩).world.w.informational = [103] ∧
    (Logger ServerWriter.ops ⟨0, 5⟩ (earlyHints.handler (responseWriter.ops ServerWriter.ops))
      (getRequest []) ⟨ServerWriter.new [], 0, []⟩).world.logs =
        [handledEntry (getRequest []) 103 ⟨0, 5⟩] := by
  decide

theorem NewNumericDate_add_minutes (t : Int) :
    NewNumericDate (t + 15 * minute) = NewNumericDate t + 15 * minute := by
  unfold NewNumericDate minute second
  omega

/-- Counterexample to C16 as stated: with the clock crossing a second boundary between
the first and the second reading, expires-at is 900 s while issued-at + 15 minutes is
901 s; and the registered subject is empty, not the user id. -/
theorem access_claims_counterexample :
    (accessClaims ⟨999999999, 1000000001, 1000000002⟩ "user-123").Registered.ExpiresAt =
      some (900 * second) ∧
    (accessClaims ⟨999999999, 1000000001, 1000000002⟩ "user-123").Registered.IssuedAt =
      some (1 * second) ∧
    900 * second ≠ 1 * second + 15 * minute ∧
    (accessClaims ⟨999999999, 1000000001, 1000000002⟩ "user-123").Registered.Subject ≠
      "user-123" := by
  decide

/-- C16 (amended): for every user id and clock readings, `GenerateAccessToken` signs with
RS256 claims whose expires-at is the first reading plus 15 minutes, truncated to the
second, whose issued-at and not-before are the second and third readings truncated to the
second, whose issuer is "social-media-app", and which carry the user id in the `user_id`
claim (the registered subject stays empty); when the three readings fall in the same
second, expires-at = issued-at + 15 minutes and not-before = issued-at. -/
theorem access_claims (lib : JWTLib) (priv : RSAPrivateKey) (pub : Option RSAPublicKey)
    (clock : IssueClock) (userID : String) :
    GenerateAccessToken lib ⟨some priv, pub⟩ clock userID =
      lib.SignedString (.rsa 256) (accessClaims clock userID) priv ∧
    (accessClaims clock userID).UserID = userID ∧
    (accessClaims clock userID).Registered.Issuer = "social-media-app" ∧
    (accessClaims clock userID).Registered.Subject = "" ∧
    (accessClaims clock userID).Registered.ExpiresAt =
      some (NewNumericDate (clock.nowExp + 15 * minute)) ∧
    (accessClaims clock userID).Registered.IssuedAt = some (NewNumericDate clock.nowIat) ∧
    (accessClaims clock userID).Registered.NotBefore = some (NewNumericDate clock.nowNbf) ∧
    (NewNumericDate clock.nowExp = NewNumericDate clock.nowIat →
      NewNumericDate clock.nowNbf = NewNumericDate clock.nowIat →
      ∃ iat, (accessClaims clock userID).Registered.IssuedAt = some iat ∧
        (accessClaims clock userID).Registered.ExpiresAt = some (iat + 15 * minute) ∧
        (accessClaims clock userID).Registered.NotBefore = some iat) := by
  refine ⟨rfl, rfl, rfl, rfl, rfl, rfl, rfl, ?_⟩
  intro h1 h2
  refine ⟨NewNumericDate clock.nowIat, rfl, ?_, ?_⟩
  · show some (NewNumericDate (clock.nowExp + 15 * minute)) = _
    rw [NewNumericDate_add_minutes, h1]
  · show some (NewNumericDate clock.nowNbf) = _
    rw [h2]

/-- Instance of `access_claims`: three readings inside the second that starts at 5 s. -/
theorem access_claims_witness :
    ∃ iat, (accessClaims ⟨5000000001, 5000000002, 5000000003⟩ "user-123").Registered.IssuedAt =
        some iat ∧
      (accessClaims ⟨5000000001, 5000000002, 5000000003⟩ "user-123").Registered.ExpiresAt =
        some (iat + 15 * minute) ∧
      (accessClaims ⟨5000000001, 5000000002, 5000000003⟩ "user-123").Registered.NotBefore =
        some iat :=
  (access_claims toyJWT ⟨⟨3, 65537⟩, 1⟩ none ⟨5000000001, 5000000002, 5000000003⟩
    "user-123").2.2.2.2.2.2.2 (by decide) (by decide)

/-- Counterexample to C17 as stated: RS384 is not the algorithm used for issuance, yet the
key function hands out the public key for an RS384 token, so that a library that finds the
token correctly signed lets `ValidateAccessToken` return its user id. -/
theorem validate_alg_counterexample :
    SigningMethod.Alg (.rsa 384) ≠ SigningMethod.Alg (.rsa 256) ∧
    keyFunc ⟨3, 65537⟩ ⟨.rsa 384, ⟨"user-123", {}⟩, false⟩ = .ok ⟨3, 65537⟩ ∧
    ValidateAccessToken (toyJWTWith (.rsa 384)) sampleKeys 0 "tuser-123" = .ok "user-123" :=
  ⟨by decide, by rfl, by rfl⟩

/-- C17 (amended): for every token string whose header names a signing method outside the
type `*jwt.SigningMethodRSA` (RS256, RS384, RS512) — the parser shows the key function a
token with that method and returns a token only if the key function returned a key —
`ValidateAccessToken` returns an error and no user id, whatever the claims and signature
bytes. -/
theorem validate_rejects_foreign_alg (lib : JWTLib) (keys : KeyState) (now : Int)
    (tok : String) (m : SigningMethod) (hm : ∀ bits, m ≠ .rsa bits)
    (hlib : ∀ kf t, lib.ParseWithClaims tok kf now = .ok t →
      ∃ t0 : Token, t0.Method = m ∧ ∃ k, kf t0 = .ok k) :
    ∃ e, ValidateAccessToken lib keys now tok = .error e := by
  unfold ValidateAccessToken
  cases hk : keys.publicKey with
  | none => exact ⟨_, rfl⟩
  | some pub =>
    cases hp : lib.ParseWithClaims tok (keyFunc pub) now with
    | error e => exact ⟨e, by simp only [hp]⟩
    | ok t =>
      obtain ⟨t0, hm0, k, hk0⟩ := hlib _ _ hp
      exfalso
      unfold keyFunc at hk0
      rw [hm0] at hk0
      cases m with
      | rsa bits => exact hm bits rfl
      | rsapss bits => simp at hk0
      | hmac bits => simp at hk0
      | ecdsa bits => simp at hk0
      | ed25519 => simp at hk0
      | none => simp at hk0

/-- Instance of `validate_rejects_foreign_alg`: a token presented as HS256. -/
theorem validate_rejects_foreign_alg_witness :
    ∃ e, ValidateAccessToken (toyJWTWith (.hmac 256)) sampleKeys 0 "tuser-123" = .error e :=
  validate_rejects_foreign_alg (toyJWTWith (.hmac 256)) sampleKeys 0 "tuser-123" (.hmac 256)
    (by intro bits h; cases h)
    (by
      intro kf t h
      cases hk : kf ⟨.hmac 256, ⟨String.mk "tuser-123".data.tail, {}⟩, false⟩ with
      | error e =>
        have h2 : (toyJWTWith (.hmac 256)).ParseWithClaims "tuser-123" kf 0 = .error e := by
          show (match kf ⟨.hmac 256, ⟨String.mk "tuser-123".data.tail, {}⟩, false⟩ with
            | Except.error e => (Except.error e : Except String Token)
            | Except.ok _ =>
              Except.ok ⟨.hmac 256, ⟨String.mk "tuser-123".data.tail, {}⟩, true⟩) = _
          rw [hk]
        rw [h2] at h
        cases h
      | ok k => exact ⟨_, rfl, k, hk⟩)

theorem unauthorized_no_cookie (header : Header) (message v : String)
    (h : ("Set-Cookie", v) ∈ (unauthorized header message).header) :
    ("Set-Cookie", v) ∈ header := by
  have h1 : CanonicalMIMEHeaderKey "X-Content-Type-Options" ≠ "Set-Cookie" := by decide
  have h2 : CanonicalMIMEHeaderKey "Content-Type" ≠ "Set-Cookie" := by decide
  simp only [unauthorized, Header.Set, List.mem_cons, List.mem_filter, Prod.mk.injEq] at h
  rcases h with h | h
  · exact absurd h.1.symm h1
  · rcases h.1 with h3 | h3
    · exact absurd h3.1.symm h2
    · exact h3.1

/-- Counterexample to C12 as stated: the cookie's value has no record in the store, but the
lookup round-trip fails, and the 401 body is the store error, not "invalid or expired
refresh token". -/
theorem refresh_rejects_counterexample :
    Store.get [] (SessionPrefix ++ hashToken toyLib "invalid-token") = none ∧
    AuthHandler.Refresh ResponseWriter.ops toyHTTP toyLib toyJWT sampleKeys
        (RefreshEnv.getFails "connection refused")
        (cookieRequest "/api/v1/auth/refresh" "refresh_token=invalid-token")
        ⟨ResponseWriter.new [], [], []⟩ =
      ⟨⟨unauthorized [] "failed to get session from redis: connection refused", [], []⟩,
        none⟩ ∧
    ¬ ("invalid or expired refresh token".toList <:+:
      (unauthorized [] "failed to get session from redis: connection refused").body.toList) :=
  ⟨by rfl, by rfl, by decide⟩

/-- C12 (amended): on an unwritten writer, a request to `Refresh` without a `refresh_token`
cookie is answered 401 with body "missing refresh token" and the store is not touched; a
request whose cookie value has no record in the store, the lookup round-trip succeeding, is
answered 401 with body "invalid or expired refresh token", the store unchanged; in both
cases the response carries no `Set-Cookie` line that was not in the header map before. -/
theorem refresh_rejects (hl : HTTPLib) (lib : Lib) (jwt : JWTLib) (keys : KeyState)
    (env : RefreshEnv) (r : Request) (header : Header) (rdb : Store)
    (logs : List LogEntry) :
    (hl.readCookie r.Header "refresh_token" = none →
      AuthHandler.Refresh ResponseWriter.ops hl lib jwt keys env r
          ⟨ResponseWriter.new header, rdb, logs⟩ =
        ⟨⟨unauthorized header "missing refresh token", rdb, logs⟩, none⟩) ∧
    (∀ t, hl.readCookie r.Header "refresh_token" = some t →
      rdb.get (SessionPrefix ++ hashToken lib t) = none → env.rotate.getFault = none →
      AuthHandler.Refresh ResponseWriter.ops hl lib jwt keys env r
          ⟨ResponseWriter.new header, rdb, logs⟩ =
        ⟨⟨unauthorized header "invalid or expired refresh token", rdb, logs⟩, none⟩) ∧
    (∀ message v, ("Set-Cookie", v) ∈ (unauthorized header message).header →
      ("Set-Cookie", v) ∈ header) := by
  refine ⟨?_, ?_, fun message v h => unauthorized_no_cookie header message v h⟩
  · intro h
    simp only [AuthHandler.Refresh, h, httpError_new]
  · intro t ht habs hg
    simp only [AuthHandler.Refresh, ht, rotate_absent lib env.rotate rdb t hg habs,
      httpError_new]

/-- Instance of `refresh_rejects`: the two rejected requests of the tests. -/
theorem refresh_rejects_witness :
    AuthHandler.Refresh ResponseWriter.ops toyHTTP toyLib toyJWT sampleKeys
        ⟨RotateEnv.healthy [1] 0, ⟨0, 0, 0⟩, 0⟩ (getRequest [])
        ⟨ResponseWriter.new [], sampleStore, []⟩ =
      ⟨⟨unauthorized [] "missing refresh token", sampleStore, []⟩, none⟩ ∧
    AuthHandler.Refresh ResponseWriter.ops toyHTTP toyLib toyJWT sampleKeys
        ⟨RotateEnv.healthy [1] 0, ⟨0, 0, 0⟩, 0⟩
        (cookieRequest "/api/v1/auth/refresh" "refresh_token=invalid-token")
        ⟨ResponseWriter.new [], sampleStore, []⟩ =
      ⟨⟨unauthorized [] "invalid or expired refresh token", sampleStore, []⟩, none⟩ :=
  ⟨(refresh_rejects toyHTTP toyLib toyJWT sampleKeys ⟨RotateEnv.healthy [1] 0, ⟨0, 0, 0⟩, 0⟩
      (getRequest []) [] sampleStore []).1 (by decide),
   (refresh_rejects toyHTTP toyLib toyJWT sampleKeys ⟨RotateEnv.healthy [1] 0, ⟨0, 0, 0⟩, 0⟩
      (cookieRequest "/api/v1/auth/refresh" "refresh_token=invalid-token") [] sampleStore
      []).2.1 "invalid-token" (by decide) (by decide) (by rfl)⟩

/-- C13, the code at the failing input: with a live record for the cookie's token, a
failure of the `Get`, of the `Del` or of the `Set` round-trip is answered with status 401
(the status of `unauthorized`), and the body carries the text of the store error. -/
theorem refresh_store_failure :
    AuthHandler.Refresh ResponseWriter.ops toyHTTP toyLib toyJWT sampleKeys
        ⟨⟨some "dial tcp 10.0.0.5:6379: connect: connection refused", none,
          CreateEnv.healthy [1] 0⟩, ⟨0, 0, 0⟩, 0⟩
        (cookieRequest "/api/v1/auth/refresh" "refresh_token=a")
        ⟨ResponseWriter.new [], sampleStore, []⟩ =
      ⟨⟨unauthorized []
        "failed to get session from redis: dial tcp 10.0.0.5:6379: connect: connection refused",
        sampleStore, []⟩, none⟩ ∧
    AuthHandler.Refresh ResponseWriter.ops toyHTTP toyLib toyJWT sampleKeys
        ⟨⟨none, some "i/o timeout", CreateEnv.healthy [1] 0⟩, ⟨0, 0, 0⟩, 0⟩
        (cookieRequest "/api/v1/auth/refresh" "refresh_token=a")
        ⟨ResponseWriter.new [], sampleStore, []⟩ =
      ⟨⟨unauthorized [] "failed to delete old session: i/o timeout", sampleStore, []⟩,
        none⟩ ∧
    AuthHandler.Refresh ResponseWriter.ops toyHTTP toyLib toyJWT sampleKeys
        ⟨⟨none, none, ⟨.ok [1], 0, some "i/o timeout"⟩⟩, ⟨0, 0, 0⟩, 0⟩
        (cookieRequest "/api/v1/auth/refresh" "refresh_token=a")
        ⟨ResponseWriter.new [], sampleStore, []⟩ =
      ⟨⟨unauthorized []
        "failed to create new refresh token: failed to store session in redis: i/o timeout",
        [], []⟩, none⟩ ∧
    (unauthorized []
      "failed to get session from redis: dial tcp 10.0.0.5:6379: connect: connection refused").status
      = 401 ∧
    "dial tcp 10.0.0.5:6379: connect: connection refused".toList <:+:
      (unauthorized []
        "failed to get session from redis: dial tcp 10.0.0.5:6379: connect: connection refused").body.toList :=
  ⟨by rfl, by rfl, by rfl, by rfl, by decide⟩

theorem store_after_delete (lib : Lib) (rdb : Store) (t : String) :
    (DeleteRefreshToken lib none rdb t).2.get (SessionPrefix ++ hashToken lib t) = none :=
  Store.get_del_self _ _

/-- C14: on an unwritten writer, every request to `Logout` — with or without a
`refresh_token` cookie, with the delete round-trip failing or not — is answered with status
204, an empty body and a `Set-Cookie` line for the cookie `refresh_token` with empty value
and expiry at the Unix epoch (the line being the non-empty text `Cookie.String` gives for
it); when a cookie with value `t` is present and the store delete succeeds, no record
remains under `session:hashToken(t)`, and without a cookie the store is left as it is. -/
theorem logout_clears (hl : HTTPLib) (lib : Lib) (delFault : Option String) (r : Request)
    (header : Header) (rdb : Store) (logs : List LogEntry)
    (hline : hl.cookieString clearedCookie ≠ "") :
    ∃ (w : ResponseWriter) (rdb1 : Store),
      AuthHandler.Logout ResponseWriter.ops hl lib delFault r
          ⟨ResponseWriter.new header, rdb, logs⟩ = ⟨⟨w, rdb1, logs⟩, none⟩ ∧
      w.wroteHeader = true ∧ w.status = 204 ∧ w.body = "" ∧
      w.header = header.Add "Set-Cookie" (hl.cookieString clearedCookie) ∧
      clearedCookie.Name = "refresh_token" ∧ clearedCookie.Value = "" ∧
      clearedCookie.Expires = 0 ∧
      (∀ t, hl.readCookie r.Header "refresh_token" = some t → delFault = none →
        rdb1.get (SessionPrefix ++ hashToken lib t) = none) ∧
      (hl.readCookie r.Header "refresh_token" = none → rdb1 = rdb) := by
  refine ⟨_, _, rfl, ?_, ?_, ?_, ?_, rfl, rfl, rfl, ?_, ?_⟩
  · simp [SetCookie, hline, ResponseWriter.ops, ResponseWriter.WriteHeader,
      ResponseWriter.new]
  · simp [SetCookie, hline, ResponseWriter.ops, ResponseWriter.WriteHeader,
      ResponseWriter.new]
  · simp [SetCookie, hline, ResponseWriter.ops, ResponseWriter.WriteHeader,
      ResponseWriter.new]
  · simp [SetCookie, hline, ResponseWriter.ops, ResponseWriter.WriteHeader,
      ResponseWriter.new]
  · intro t ht hd
    simp only [ht, hd]
    exact (store_after_delete lib rdb t)
  · intro hn
    simp only [hn]

/-- Instance of `logout_clears`: logout with the cookie of the sample session. -/
theorem logout_clears_witness :
    ∃ (w : ResponseWriter) (rdb1 : Store),
      AuthHandler.Logout ResponseWriter.ops toyHTTP toyLib none
          (cookieRequest "/api/v1/auth/logout" "refresh_token=a")
          ⟨ResponseWriter.new [], sampleStore, []⟩ = ⟨⟨w, rdb1, []⟩, none⟩ ∧
      w.wroteHeader = true ∧ w.status = 204 ∧ w.body = "" ∧
      w.header = Header.Add [] "Set-Cookie" (toyHTTP.cookieString clearedCookie) ∧
      clearedCookie.Name = "refresh_token" ∧ clearedCookie.Value = "" ∧
      clearedCookie.Expires = 0 ∧
      (∀ t, toyHTTP.readCookie (cookieRequest "/api/v1/auth/logout" "refresh_token=a").Header
          "refresh_token" = some t → (none : Option String) = none →
        rdb1.get (SessionPrefix ++ hashToken toyLib t) = none) ∧
      (toyHTTP.readCookie (cookieRequest "/api/v1/auth/logout" "refresh_token=a").Header
          "refresh_token" = none → rdb1 = sampleStore) :=
  logout_clears toyHTTP toyLib none (cookieRequest "/api/v1/auth/logout" "refresh_token=a")
    [] sampleStore [] (by decide)

theorem countHandled_append (a b : List LogEntry) :
    countHandled (a ++ b) = countHandled a + countHandled b := by
  simp [countHandled, List.filter_append]

theorem recoverer_panic {W σ : Type} (ops : WriterOps W) (stack : String)
    (next : Handler W σ) (r : Request) (world : World W σ) :
    (Recoverer ops stack next r world).panic = none ∨
      (Recoverer ops stack next r world).panic = some .ErrAbortHandler := by
  cases hp : (next r world).panic with
  | none => left; simp only [Recoverer, hp]
  | some err =>
    by_cases he : err = PanicValue.ErrAbortHandler
    · right; simp only [Recoverer, hp, he, if_true]
    · left; simp only [Recoverer, hp, he, if_false]

theorem recoverer_countHandled {W σ : Type} (ops : WriterOps W) (stack : String)
    (next : Handler W σ) (r : Request) (world : World W σ) :
    countHandled (Recoverer ops stack next r world).world.logs =
      countHandled (next r world).world.logs := by
  cases hp : (next r world).panic with
  | none => simp only [Recoverer, hp]
  | some err =>
    by_cases he : err = PanicValue.ErrAbortHandler
    · simp only [Recoverer, hp, he, if_true]
    · simp only [Recoverer, hp, he, if_false, countHandled_append]
      simp [countHandled]

theorem cors_countHandled {W σ : Type} (ops : WriterOps W) (allowedOrigins : String)
    (next : Handler W σ) (r : Request) (world : World W σ)
    (hquiet : ∀ r1 w1, countHandled (next r1 w1).world.logs = countHandled w1.logs) :
    countHandled (CORS ops allowedOrigins next r world).world.logs =
      countHandled world.logs := by
  unfold CORS
  by_cases ho : r.Header.Get "Origin" = ""
  · simp only [ho, if_true]
    exact hquiet r world
  · simp only [ho, if_false]
    by_cases hm : r.Method = "OPTIONS"
    · simp [hm]
    · simp only [hm, if_false]
      rw [hquiet]

/-- C18: in the chain that `SetupRouter` builds (`RequestID` around `Logger` around
`Recoverer` around `CORS` around the routes), for every request there is a non-empty id,
the inbound `X-Request-ID` when that is non-empty, such that `Logger` runs on the request
whose context carries the id and on the writer whose `X-Request-ID` header `RequestID` has
set to the id. The request ends without panic or with the abort panic; with routes that
write no "request handled" record themselves, a request that ends without the abort panic
adds exactly one such record, the last of the log, whose `request_id` is the id; a request
that ends with the abort panic adds none. -/
theorem chain_logs_once {σ : Type} (cfg : Config) (env : ServeEnv)
    (routes : Handler (responseWriter ResponseWriter) σ) (r : Request)
    (world : World ResponseWriter σ)
    (hquiet : ∀ r1 w1, countHandled (routes r1 w1).world.logs = countHandled w1.logs) :
    ∃ (id : String) (w1 : ResponseWriter),
      id ≠ "" ∧
      (r.Header.Get RequestIDHeader ≠ "" → id = r.Header.Get RequestIDHeader) ∧
      w1.header.Get RequestIDHeader = id ∧
      middlewareChain ResponseWriter.ops cfg env routes r world =
        Logger ResponseWriter.ops env.clock
          (Recoverer (responseWriter.ops ResponseWriter.ops) env.stack
            (CORS (responseWriter.ops ResponseWriter.ops) cfg.CORSAllowedOrigins routes))
          (r.WithContext (r.ctx.WithValue RequestIDKey (.str id))) { world with w := w1 } ∧
      ((middlewareChain ResponseWriter.ops cfg env routes r world).panic = none ∨
        (middlewareChain ResponseWriter.ops cfg env routes r world).panic =
          some .ErrAbortHandler) ∧
      ((middlewareChain ResponseWriter.ops cfg env routes r world).panic = none →
        ∃ pre status,
          (middlewareChain ResponseWriter.ops cfg env routes r world).world.logs =
            pre ++ [handledEntry (r.WithContext (r.ctx.WithValue RequestIDKey (.str id)))
              status env.clock] ∧
          countHandled pre = countHandled world.logs ∧
          ("request_id", id) ∈ (handledEntry
            (r.WithContext (r.ctx.WithValue RequestIDKey (.str id))) status env.clock).attrs ∧
          countHandled (middlewareChain ResponseWriter.ops cfg env routes r world).world.logs =
            countHandled world.logs + 1) ∧
      ((middlewareChain ResponseWriter.ops cfg env routes r world).panic =
          some .ErrAbortHandler →
        countHandled (middlewareChain ResponseWriter.ops cfg env routes r world).world.logs =
          countHandled world.logs) := by
  -- the id chosen by `RequestID`
  obtain ⟨id, hid, hne, hin⟩ : ∃ id : String,
      id = (if r.Header.Get RequestIDHeader = "" then uuidString (uuidNew env.rand)
        else r.Header.Get RequestIDHeader) ∧ id ≠ "" ∧
      (r.Header.Get RequestIDHeader ≠ "" → id = r.Header.Get RequestIDHeader) := by
    by_cases h : r.Header.Get RequestIDHeader = ""
    · exact ⟨_, rfl, by simp only [h, if_true]; exact uuidString_ne_empty _,
        fun hc => absurd h hc⟩
    · exact ⟨_, rfl, by simp only [h, if_false]; exact h, fun _ => by simp only [h, if_false]⟩
  have hchain : middlewareChain ResponseWriter.ops cfg env routes r world =
      Logger ResponseWriter.ops env.clock
        (Recoverer (responseWriter.ops ResponseWriter.ops) env.stack
          (CORS (responseWriter.ops ResponseWriter.ops) cfg.CORSAllowedOrigins routes))
        (r.WithContext (r.ctx.WithValue RequestIDKey (.str id)))
        { world with
          w := { world.w with header := world.w.header.Set RequestIDHeader id } } := by
    rw [hid]
    rfl
  have hgid : GetRequestID (r.WithContext (r.ctx.WithValue RequestIDKey (.str id))).ctx = id := by
    simp [GetRequestID, Request.WithContext, Context.WithValue, Context.Value]
  refine ⟨id, { world.w with header := world.w.header.Set RequestIDHeader id }, hne, hin,
    Header.Get_Set_self _ _ _, hchain, ?_⟩
  rw [hchain]
  -- what runs inside `Logger`
  generalize hdown : Recoverer (responseWriter.ops ResponseWriter.ops) env.stack
      (CORS (responseWriter.ops ResponseWriter.ops) cfg.CORSAllowedOrigins routes)
      (r.WithContext (r.ctx.WithValue RequestIDKey (.str id)))
      ⟨wrapResponseWriter { world.w with header := world.w.header.Set RequestIDHeader id },
        world.app, world.logs⟩ = down
  have hpanic := recoverer_panic (responseWriter.ops ResponseWriter.ops) env.stack
      (CORS (responseWriter.ops ResponseWriter.ops) cfg.CORSAllowedOrigins routes)
      (r.WithContext (r.ctx.WithValue RequestIDKey (.str id)))
      ⟨wrapResponseWriter { world.w with header := world.w.header.Set RequestIDHeader id },
        world.app, world.logs⟩
  have hcount : countHandled down.world.logs = countHandled world.logs := by
    rw [← hdown, recoverer_countHandled, cors_countHandled _ _ _ _ _ hquiet]
  rw [hdown] at hpanic
  have hlog : Logger ResponseWriter.ops env.clock
      (Recoverer (responseWriter.ops ResponseWriter.ops) env.stack
        (CORS (responseWriter.ops ResponseWriter.ops) cfg.CORSAllowedOrigins routes))
      (r.WithContext (r.ctx.WithValue RequestIDKey (.str id)))
      { world with w := { world.w with header := world.w.header.Set RequestIDHeader id } } =
      (match down.panic with
      | some p => ⟨⟨down.world.w.ResponseWriter, down.world.app, down.world.logs⟩, some p⟩
      | none =>
        ⟨⟨down.world.w.ResponseWriter, down.world.app,
          down.world.logs ++ [handledEntry
            (r.WithContext (r.ctx.WithValue RequestIDKey (.str id)))
            (if down.world.w.Status = 0 then 200 else down.world.w.Status) env.clock]⟩,
          none⟩) := by
    rw [← hdown]
    rfl
  rw [hlog]
  rcases hpanic with hp | hp
  · rw [hp]
    refine ⟨Or.inl rfl, fun _ => ?_, fun hc => ?_⟩
    · refine ⟨down.world.logs, _, rfl, hcount, ?_, ?_⟩
      · simp [handledEntry, hgid]
      · show countHandled (down.world.logs ++ _) = _
        simp only [countHandled_append, hcount]
        simp [countHandled, handledEntry]
    · exact absurd hc (by simp)
  · rw [hp]
    refine ⟨Or.inr rfl, fun hc => ?_, fun _ => hcount⟩
    exact absurd hc (by simp)

theorem appRoutes_quiet {W σ : Type} (ops : WriterOps W) (r : Request) (world : World W σ) :
    countHandled (appRoutes ops r world).world.logs = countHandled world.logs := by
  unfold appRoutes
  split_ifs <;> rfl

/-- Instance of `chain_logs_once`: a GET request for "/" served by the router of
`SetupRouter` on an empty log leaves exactly one "request handled" record. -/
theorem chain_logs_once_witness :
    countHandled (SetupRouter (σ := Nat) ResponseWriter.ops sampleConfig sampleServeEnv
      (getRequest []) ⟨ResponseWriter.new [], 0, []⟩).world.logs = 1 := by
  obtain ⟨id, w1, _, _, _, _, _, honce, _⟩ :=
    chain_logs_once (σ := Nat) sampleConfig sampleServeEnv
      (appRoutes (responseWriter.ops ResponseWriter.ops)) (getRequest [])
      ⟨ResponseWriter.new [], 0, []⟩ (fun r1 w1 => appRoutes_quiet _ r1 w1)
  obtain ⟨pre, status, _, _, _, hc⟩ := honce (by rfl)
  simpa [SetupRouter, countHandled] using hc

/-- The three steps of `rotateStep` from the start are `RotateRefreshToken`. -/
theorem rotateStep_sequential (lib : Lib) (env : RotateEnv) (t : String) (rdb : Store) :
    rotateStep lib env t
        (rotateStep lib env t (rotateStep lib env t .start rdb).1
          (rotateStep lib env t .start rdb).2).1
        (rotateStep lib env t (rotateStep lib env t .start rdb).1
          (rotateStep lib env t .start rdb).2).2 =
      (.returned (RotateRefreshToken lib env rdb t).1, (RotateRefreshToken lib env rdb t).2) := by
  unfold RotateRefreshToken
  cases hg : redisGet env.getFault rdb (SessionPrefix ++ hashToken lib t) with
  | redisNil => simp [rotateStep, hg]
  | err e => simp [rotateStep, hg]
  | val v =>
    cases hu : lib.jsonUnmarshal v with
    | error e => simp [rotateStep, hg, hu]
    | ok session =>
      cases hd : redisDel env.delFault rdb (SessionPrefix ++ hashToken lib t) with
      | mk derr rdb1 =>
        cases derr with
        | some e => simp [rotateStep, hg, hu, hd]
        | none =>
          cases hc : CreateRefreshToken lib env.create rdb1 session.UserID with
          | mk res rdb2 =>
            cases res with
            | error e => simp [rotateStep, hg, hu, hd, hc]
            | ok tok => simp [rotateStep, hg, hu, hd, hc]

/-- C19: two concurrent `RotateRefreshToken` calls on the same live token `t`, their store
steps interleaved get-get-delete-delete-set-set, both pass the existence check (both are
past the `Get` with the decoded session) and both return success for the same user, with
different new secrets; the store then holds a live session under each new secret and (the
new secrets not hashing to the hash of `t`) none under `t`. Each call, run alone, is
`RotateRefreshToken` (`rotateStep_sequential`). -/
theorem rotate_race (lib : Lib) (rdb : Store) (t u : String) (expiry : Int) (entry : Entry)
    (bA bB : List Nat) (nowA nowB : Int) (dA dB : String)
    (hrec : rdb.get (SessionPrefix ++ hashToken lib t) = some entry)
    (hwf : lib.jsonUnmarshal entry.value = .ok ⟨u, expiry⟩)
    (hmA : lib.jsonMarshal ⟨u, nowA + RefreshTokenTTL⟩ = .ok dA)
    (hmB : lib.jsonMarshal ⟨u, nowB + RefreshTokenTTL⟩ = .ok dB)
    (hAB : hashToken lib (hexEncode bA) ≠ hashToken lib (hexEncode bB))
    (hAt : hashToken lib (hexEncode bA) ≠ hashToken lib t)
    (hBt : hashToken lib (hexEncode bB) ≠ hashToken lib t) :
    (Race.run lib (RotateEnv.healthy bA nowA) (RotateEnv.healthy bB nowB) t [.A, .B]
      ⟨.start, .start, rdb⟩).phaseA = .afterGet ⟨u, expiry⟩ ∧
    (Race.run lib (RotateEnv.healthy bA nowA) (RotateEnv.healthy bB nowB) t [.A, .B]
      ⟨.start, .start, rdb⟩).phaseB = .afterGet ⟨u, expiry⟩ ∧
    (Race.run lib (RotateEnv.healthy bA nowA) (RotateEnv.healthy bB nowB) t
      [.A, .B, .A, .B, .A, .B] ⟨.start, .start, rdb⟩).phaseA =
        .returned (.ok (hexEncode bA, u)) ∧
    (Race.run lib (RotateEnv.healthy bA nowA) (RotateEnv.healthy bB nowB) t
      [.A, .B, .A, .B, .A, .B] ⟨.start, .start, rdb⟩).phaseB =
        .returned (.ok (hexEncode bB, u)) ∧
    hexEncode bA ≠ hexEncode bB ∧
    (Race.run lib (RotateEnv.healthy bA nowA) (RotateEnv.healthy bB nowB) t
      [.A, .B, .A, .B, .A, .B] ⟨.start, .start, rdb⟩).rdb.get
        (SessionPrefix ++ hashToken lib (hexEncode bA)) = some ⟨dA, RefreshTokenTTL⟩ ∧
    (Race.run lib (RotateEnv.healthy bA nowA) (RotateEnv.healthy bB nowB) t
      [.A, .B, .A, .B, .A, .B] ⟨.start, .start, rdb⟩).rdb.get
        (SessionPrefix ++ hashToken lib (hexEncode bB)) = some ⟨dB, RefreshTokenTTL⟩ ∧
    (Race.run lib (RotateEnv.healthy bA nowA) (RotateEnv.healthy bB nowB) t
      [.A, .B, .A, .B, .A, .B] ⟨.start, .start, rdb⟩).rdb.get
        (SessionPrefix ++ hashToken lib t) = none := by
  have kAB : SessionPrefix ++ hashToken lib (hexEncode bA) ≠
      SessionPrefix ++ hashToken lib (hexEncode bB) :=
    fun hc => hAB ((sessionKey_inj _ _).mp hc)
  have kAt : SessionPrefix ++ hashToken lib (hexEncode bA) ≠
      SessionPrefix ++ hashToken lib t :=
    fun hc => hAt ((sessionKey_inj _ _).mp hc)
  have kBt : SessionPrefix ++ hashToken lib (hexEncode bB) ≠
      SessionPrefix ++ hashToken lib t :=
    fun hc => hBt ((sessionKey_inj _ _).mp hc)
  have h2 : Race.run lib (RotateEnv.healthy bA nowA) (RotateEnv.healthy bB nowB) t [.A, .B]
      ⟨.start, .start, rdb⟩ = ⟨.afterGet ⟨u, expiry⟩, .afterGet ⟨u, expiry⟩, rdb⟩ := by
    simp [Race.run, Race.step, rotateStep, RotateEnv.healthy, redisGet, hrec, hwf]
  have h6 : Race.run lib (RotateEnv.healthy bA nowA) (RotateEnv.healthy bB nowB) t
      [.A, .B, .A, .B, .A, .B] ⟨.start, .start, rdb⟩ =
      ⟨.returned (.ok (hexEncode bA, u)), .returned (.ok (hexEncode bB, u)),
        ((((rdb.del (SessionPrefix ++ hashToken lib t)).del
          (SessionPrefix ++ hashToken lib t)).set
          (SessionPrefix ++ hashToken lib (hexEncode bA)) dA RefreshTokenTTL).set
          (SessionPrefix ++ hashToken lib (hexEncode bB)) dB RefreshTokenTTL)⟩ := by
    simp [Race.run, Race.step, rotateStep, RotateEnv.healthy, CreateEnv.healthy, redisGet,
      redisDel, redisSet, CreateRefreshToken, generateRandomToken, hrec, hwf, hmA, hmB]
  rw [h2, h6]
  refine ⟨rfl, rfl, rfl, rfl, fun hc => hAB (by rw [hc]), ?_, ?_, ?_⟩
  · rw [Store.get_set_other _ _ _ _ _ (Ne.symm kAB), Store.get_set_self]
  · rw [Store.get_set_self]
  · rw [Store.get_set_other _ _ _ _ _ kBt, Store.get_set_other _ _ _ _ _ kAt,
      Store.get_del_self]

/-- Instance of `rotate_race` on the sample store with the toy library: both calls return
success for user "u" with the secrets "01" and "02". -/
theorem rotate_race_witness :
    (Race.run toyLib (RotateEnv.healthy [1] 3) (RotateEnv.healthy [2] 4) "a"
      [.A, .B, .A, .B, .A, .B] ⟨.start, .start, sampleStore⟩).phaseA =
        .returned (.ok ("01", "u")) ∧
    (Race.run toyLib (RotateEnv.healthy [1] 3) (RotateEnv.healthy [2] 4) "a"
      [.A, .B, .A, .B, .A, .B] ⟨.start, .start, sampleStore⟩).phaseB =
        .returned (.ok ("02", "u")) :=
  have h := rotate_race toyLib sampleStore "a" "u" 0 ⟨"u", RefreshTokenTTL⟩ [1] [2] 3 4 "u" "u"
    (by decide) (by rfl) (by rfl) (by rfl) (by decide) (by decide) (by decide)
  ⟨h.2.2.1, h.2.2.2.1⟩

/-- Counterexample to C20 as stated: the store holds a well-formed record for user "u"
under the key of "a", but the lookup round-trip fails and the rotation does not succeed. -/
theorem rotate_expiry_counterexample :
    Store.get sampleStore (SessionPrefix ++ hashToken toyLib "a") =
      some ⟨"u", RefreshTokenTTL⟩ ∧
    toyLib.jsonUnmarshal "u" = .ok ⟨"u", 0⟩ ∧
    RotateRefreshToken toyLib ⟨some "connection refused", none, CreateEnv.healthy [1] 0⟩
        sampleStore "a" =
      (.error "failed to get session from redis: connection refused", sampleStore) :=
  ⟨by decide, by rfl, by rfl⟩

/-- C20 (amended): with `rand.Read`, the JSON encoding and the store round-trips
succeeding, for every store holding under `session:hashToken(t)` a record that decodes to a
session of user `u`, whatever its `Expiry` (a time in the past included), the rotation of
`t` at time `now` succeeds and returns `u`, and the replacement record is the encoding of
the session with `Expiry = now + 30 days`, stored with a TTL of 30 days; the old `Expiry`
plays no part. -/
theorem rotate_ignores_expiry (lib : Lib) (rdb : Store) (t u : String) (expiry : Int)
    (entry : Entry) (bytes : List Nat) (now : Int) (data : String)
    (hrec : rdb.get (SessionPrefix ++ hashToken lib t) = some entry)
    (hwf : lib.jsonUnmarshal entry.value = .ok ⟨u, expiry⟩)
    (hmar : lib.jsonMarshal ⟨u, now + 30 * 24 * hour⟩ = .ok data) :
    ∃ rdb1, RotateRefreshToken lib (RotateEnv.healthy bytes now) rdb t =
        (.ok (hexEncode bytes, u), rdb1) ∧
      rdb1.get (SessionPrefix ++ hashToken lib (hexEncode bytes)) =
        some ⟨data, 30 * 24 * hour⟩ := by
  refine ⟨(rdb.del (SessionPrefix ++ hashToken lib t)).set
    (SessionPrefix ++ hashToken lib (hexEncode bytes)) data RefreshTokenTTL, ?_, ?_⟩
  · have hmar2 : lib.jsonMarshal ⟨u, now + RefreshTokenTTL⟩ = .ok data := hmar
    simp [RotateRefreshToken, RotateEnv.healthy, CreateEnv.healthy, redisGet, redisDel,
      redisSet, CreateRefreshToken, generateRandomToken, hrec, hwf, hmar2]
  · rw [Store.get_set_self]
    rfl

/-- Instance of `rotate_ignores_expiry`: the sample record, whose `Expiry` (time 0) is in
the past at the time of rotation. -/
theorem rotate_ignores_expiry_witness :
    ∃ rdb1, RotateRefreshToken toyLib (RotateEnv.healthy [1] 1000) sampleStore "a" =
        (.ok (hexEncode [1], "u"), rdb1) ∧
      rdb1.get (SessionPrefix ++ hashToken toyLib (hexEncode [1])) =
        some ⟨"u", 30 * 24 * hour⟩ :=
  rotate_ignores_expiry toyLib sampleStore "a" "u" 0 ⟨"u", RefreshTokenTTL⟩ [1] 1000 "u"
    (by decide) (by rfl) (by rfl)

end SocialMediaApp
